import Mathlib

/-
Shallow embedding of `panel/command/serve.py` (class `Serve`, method
`Serve.invoke`).  The bootstrap procedure is modelled as a pure function from
the parsed command-line arguments (`Args`), the environment-derived settings
collaborator (`Settings`) and an abstract external environment (`Env`:
filesystem, glob expansion and the external `build_single_handler_applications`
collaborator) to an `Outcome`: either a fatal termination (`die`, an uncaught
`RuntimeError`, or an uncaught `IndexError`) or the server-construction step,
carrying the resolved route table, the resolved keyword-argument record and the
trace of log/watch events emitted by the dev-mode autoreload machinery
(source lines 60-186; the logging preamble of lines 42-54 and the blocking
server loop after construction are outside the model).
-/

namespace PanelServe

/-- A value stored in the Python `server_kwargs` dict.  `Value.none` is
Python's `None`; `authModule`/`nullAuth` are the two auth-provider variants;
`patterns` is the Tornado extra-pattern list. -/
inductive Value where
  | int (n : Int)
  | str (s : String)
  | bool (b : Bool)
  | strList (l : List String)
  | patterns (ps : List (String × Bool))
  | authModule (path : String)
  | nullAuth
  | none
deriving Repr, DecidableEq

/-- Python truthiness of a `Value` (`not server_kwargs['secret_key']`). -/
def pyFalsy : Value → Bool
  | Value.int n => n = 0
  | Value.str s => s.isEmpty
  | Value.bool b => !b
  | Value.strList l => l.isEmpty
  | Value.patterns l => l.isEmpty
  | Value.authModule _ => false
  | Value.nullAuth => false
  | Value.none => true

/-- Lift an optional string (e.g. `settings.secret_key_bytes()`) to the value
actually stored in the dict: `None` stays `None`. -/
def optStr : Option String → Value
  | Option.none => Value.none
  | some s => Value.str s

/-- An application handler in the route table.  `empty` is the default
`Application()` inserted for an empty mapping; applications produced by the
external `build_single_handler_applications` collaborator are `ofHandler`. -/
inductive App where
  | empty
  | ofHandler (file : String)
deriving Repr, DecidableEq

/-- Observable events emitted while resolving autoreload targets
(lines 157-186): `log.info`, `log.warning` and `tornado.autoreload.watch`. -/
inductive Event where
  | info (s : String)
  | warning (s : String)
  | watch (p : String)
deriving Repr, DecidableEq

/-- The ways `Serve.invoke` terminates before constructing a server:
`die` (bokeh's fatal-error helper: one diagnostic line, non-zero exit),
an uncaught `RuntimeError` (line 138), or an uncaught `IndexError`
(`args.files[0]` on an empty list, line 185). -/
inductive Fatal where
  | die (msg : String)
  | runtimeError (msg : String)
  | indexError
deriving Repr, DecidableEq

/-- Result of the bootstrap: fatal termination (with the events emitted before
terminating) or reaching server construction with the resolved route table,
resolved `server_kwargs` and the emitted event trace. -/
inductive Outcome where
  | fatal (err : Fatal) (trace : List Event)
  | run (apps : List (String × App)) (cfg : List (String × Value)) (trace : List Event)
deriving Repr, DecidableEq

mutual
/-- A node of the modelled filesystem: a regular file or a directory with an
ordered list of children. -/
inductive Entry where
  | file (name : String)
  | dir (name : String) (children : EntryList)
deriving Repr
/-- The ordered children of a directory (a dedicated list type keeps every
function on the tree structurally recursive and hence computable). -/
inductive EntryList where
  | nil
  | cons (e : Entry) (rest : EntryList)
deriving Repr
end

/-- The parsed `argparse.Namespace` for the `serve` subcommand.  Flags that
argparse always materialises (`store_true` booleans, `num_procs` which has
default `1`) are plain values; flags whose parser default is `None` are
`Option`s.  `args.args` is `appArgs`; `args.prefix` is `prefixArg` and
`args.show` is `showArg` (Lean reserves those words).  `dev` is `None` when `--dev` is absent and the (possibly
empty) extra-watch list when present. -/
structure Args where
  files : List String
  glob : Bool
  appArgs : List String
  port : Option Int
  address : Option String
  allow_websocket_origin : Option (List String)
  num_procs : Int
  prefixArg : Option String
  index : Option String
  keep_alive : Option Int
  check_unused_sessions : Option Int
  unused_session_lifetime : Option Int
  stats_log_frequency : Option Int
  mem_log_frequency : Option Int
  use_xheaders : Bool
  websocket_max_message_size : Option Int
  include_cookies : Option (List String)
  include_headers : Option (List String)
  exclude_cookies : Option (List String)
  exclude_headers : Option (List String)
  session_token_expiration : Option Int
  session_ids : Option String
  tranquilize : Bool
  dev : Option (List String)
  showArg : Bool
  disable_index : Bool
  disable_index_redirect : Bool
  ssl_certfile : Option String
  ssl_keyfile : Option String
  auth_module : Option String
  enable_xsrf_cookies : Bool
  cookie_secret : Option String

/-- The bokeh `settings` collaborator: each accessor mirrors the call made in
the source; accessors that take a CLI-supplied default are functions of that
default (environment value wins when set, otherwise the default is returned —
their behaviour is external, so they are arbitrary functions here). -/
structure Settings where
  sign_sessions : Bool
  secret_key_bytes : Option String
  ssl_certfile : Option String → Option String
  ssl_keyfile : Option String → Option String
  ssl_password : Option String
  auth_module : Option String → Option String
  xsrf_cookies : Bool → Bool
  cookie_secret : Option String → Option String

/-- The external world: `glob.glob`, the external
`build_single_handler_applications` collaborator (taking the file list and the
shared per-file extra argv), `os.path.abspath`, and path resolution into the
modelled filesystem. -/
structure Env where
  globFn : String → List String
  buildApps : List String → List String → List (String × App)
  abspath : String → String
  pathEntry : String → Option Entry

/-- `os.path.join(path, name)` for the simple relative names produced by
`os.walk`. -/
def joinPath (p n : String) : String := p ++ "/" ++ n

/-- Kernel-computable `s.endswith(suffix)`; `fnmatch(name, "*.X")` on a
case-sensitive (POSIX) platform is exactly `name.endswith(".X")`. -/
def strEndsWith (s suffix : String) : Bool :=
  List.isPrefixOf suffix.data.reverse s.data.reverse

/-- The filter of `find_autoreload_targets` (lines 164-166):
`fnmatch(name, '*.html') or fnmatch(name, '*.css') or fnmatch(name, '*.yaml')`. -/
def matchesAutoreloadTarget (name : String) : Bool :=
  strEndsWith name ".html" || strEndsWith name ".css" || strEndsWith name ".yaml"

/-- Names of the regular files among a directory's children. -/
def fileNames : EntryList → List String
  | EntryList.nil => []
  | EntryList.cons (Entry.file n) rest => n :: fileNames rest
  | EntryList.cons (Entry.dir _ _) rest => fileNames rest

/-- Names of the subdirectories among a directory's children. -/
def dirNames : EntryList → List String
  | EntryList.nil => []
  | EntryList.cons (Entry.file _) rest => dirNames rest
  | EntryList.cons (Entry.dir n _) rest => n :: dirNames rest

/-- The recursive part of `os.walk`: the triples contributed by the
subdirectories of a directory whose children are `es`, in top-down order. -/
def walkChildren (path : String) : EntryList → List (String × List String × List String)
  | EntryList.nil => []
  | EntryList.cons (Entry.file _) rest => walkChildren path rest
  | EntryList.cons (Entry.dir n cs) rest =>
      ((joinPath path n, dirNames cs, fileNames cs) :: walkChildren (joinPath path n) cs)
        ++ walkChildren path rest

/-- `os.walk(path)` (top-down) for a directory at `path` with children `es`:
yields `(dirpath, dirnames, filenames)` for the directory itself and,
recursively, for every subdirectory at any depth. -/
def walkDir (path : String) (es : EntryList) : List (String × List String × List String) :=
  (path, dirNames es, fileNames es) :: walkChildren path es

/-- All `(dirpath, filename)` pairs of regular files at any depth at or below
a directory at `path` with children `es` (independent specification of the
territory covered by `os.walk`). -/
def allFilePairs (path : String) : EntryList → List (String × String)
  | EntryList.nil => []
  | EntryList.cons (Entry.file n) rest => (path, n) :: allFilePairs path rest
  | EntryList.cons (Entry.dir n cs) rest =>
      allFilePairs (joinPath path n) cs ++ allFilePairs path rest

/-- The `(dirpath, filename)` pairs lying strictly below the directory itself,
i.e. inside some subdirectory. -/
def subFilePairs (path : String) : EntryList → List (String × String)
  | EntryList.nil => []
  | EntryList.cons (Entry.file _) rest => subFilePairs path rest
  | EntryList.cons (Entry.dir n cs) rest =>
      allFilePairs (joinPath path n) cs ++ subFilePairs path rest

/-- The `(dirpath, filename)` pairs listed by a sequence of walk triples. -/
def walkPairs (ts : List (String × List String × List String)) : List (String × String) :=
  ts.flatMap fun t => t.2.2.map fun n => (t.1, n)

/-- `os.path.isdir` in the modelled filesystem. -/
def isdir (env : Env) (p : String) : Bool :=
  match env.pathEntry p with
  | some (Entry.dir _ _) => true
  | _ => false

/-- `find_autoreload_targets` (lines 157-168): abspath the app path; if it is
not a directory do nothing; otherwise walk it and, for every file whose name
passes the glob filter, log `Watching: <joined path>` and register the joined
path with the watcher. -/
def find_autoreload_targets (env : Env) (app_path : String) : List Event :=
  let path := env.abspath app_path
  match env.pathEntry path with
  | some (Entry.dir _ cs) =>
      (walkDir path cs).flatMap fun t =>
        (t.2.2.filter matchesAutoreloadTarget).flatMap fun n =>
          [Event.info ("Watching: " ++ joinPath t.1 n), Event.watch (joinPath t.1 n)]
  | _ => []

/-- `add_optional_autoreload_files` (lines 170-176): directories are skipped
with a warning; every other path is logged and registered. -/
def add_optional_autoreload_files (env : Env) (file_list : List String) : List Event :=
  file_list.flatMap fun f =>
    if isdir env f then [Event.warning ("Cannot watch directory " ++ f)]
    else [Event.info ("Watching: " ++ f), Event.watch f]

/-- The resolved `server_kwargs` record: a Python dict as an
insertion-ordered association list with unique keys. -/
abbrev Config := List (String × Value)

/-- Dict read: first (and in our configs only) binding of a key. -/
def cfgGet : Config → String → Option Value
  | [], _ => Option.none
  | p :: rest, k => if p.1 = k then some p.2 else cfgGet rest k

/-- Dict assignment `d[k] = v`: overwrite the existing binding in place or
append a new one. -/
def setKey : Config → String → Value → Config
  | [], k, v => [(k, v)]
  | p :: rest, k, v => if p.1 = k then (k, v) :: rest else p :: setKey rest k v

/-- Python truthiness of `d[k]` (the key is present at every use site). -/
def cfgGetTruthy (c : Config) (k : String) : Bool :=
  match cfgGet c k with
  | some v => !(pyFalsy v)
  | Option.none => false

/-- Lines 60-65: glob-expand the file arguments or take them literally. -/
def resolveFiles (env : Env) (a : Args) : List String :=
  if a.glob then a.files.flatMap env.globFn else a.files

/-- Lines 67-72: build the route table from the files (each paired with the
shared `args.args`); an empty mapping is replaced by the root route bound to
an empty application. -/
def resolveApplications (env : Env) (a : Args) : List (String × App) :=
  let apps := env.buildApps (resolveFiles env a) a.appArgs
  if apps.length = 0 then [("/", App.empty)] else apps

/-- The allow-list comprehension of lines 90-109, as
`(key, getattr(args, key, None))` entries in source order.  The five
`*_milliseconds` names only exist on the namespace when the corresponding
rename at lines 75-88 ran, i.e. exactly when the `seconds`-style source flag
is not `None`, with the value passed through unchanged. -/
def kwargEntries (a : Args) : List (String × Option Value) :=
  [("port", a.port.map Value.int),
   ("address", a.address.map Value.str),
   ("allow_websocket_origin", a.allow_websocket_origin.map Value.strList),
   ("num_procs", some (Value.int a.num_procs)),
   ("prefix", a.prefixArg.map Value.str),
   ("index", a.index.map Value.str),
   ("keep_alive_milliseconds", a.keep_alive.map Value.int),
   ("check_unused_sessions_milliseconds", a.check_unused_sessions.map Value.int),
   ("unused_session_lifetime_milliseconds", a.unused_session_lifetime.map Value.int),
   ("stats_log_frequency_milliseconds", a.stats_log_frequency.map Value.int),
   ("mem_log_frequency_milliseconds", a.mem_log_frequency.map Value.int),
   ("use_xheaders", some (Value.bool a.use_xheaders)),
   ("websocket_max_message_size", a.websocket_max_message_size.map Value.int),
   ("include_cookies", a.include_cookies.map Value.strList),
   ("include_headers", a.include_headers.map Value.strList),
   ("exclude_cookies", a.exclude_cookies.map Value.strList),
   ("exclude_headers", a.exclude_headers.map Value.strList),
   ("session_token_expiration", a.session_token_expiration.map Value.int)]

/-- Keep exactly the entries whose value is not `None` (the
`if getattr(args, key, None) is not None` guard of the comprehension). -/
def cfgOfEntries (l : List (String × Option Value)) : Config :=
  l.filterMap fun p => p.2.map fun v => (p.1, v)

/-- The initial `server_kwargs` dict built at lines 90-109. -/
def baseKwargs (a : Args) : Config :=
  cfgOfEntries (kwargEntries a)

/-- Modelled from the spec: the built-in default index template identifier
`INDEX_HTML` imported from `panel.io.server` (a module of this repository not
among the verified sources); only its identity as a fixed string matters. -/
def INDEX_HTML : String := "panel/io/index.html"

/-- Lines 142-143: the diagnostic passed to `die` when signing is enabled
without a resolvable secret key. -/
def secretKeyDieMsg : String :=
  "To sign sessions, the BOKEH_SECRET_KEY environment variable must be set; " ++
  "the `bokeh secret` command can be used to generate a new key."

/-- Line 180: the diagnostic passed to `die` in dev mode with several apps. -/
def devDieMsg : String := "--dev can only support a single app."

/-- Line 182: the informational line logged when dev mode downgrades the
worker-process count. -/
def numProcsMsg : String := "Running in --dev mode. --num-procs is limited to 1."

/-- Lines 111-126: default index, optional tranquilize catch-all fallback
pattern `(r".*", FallbackHandler, dict(fallback=<tranquilized WSGI app>))`
(recorded as the regex together with a marker that the handler is the
fallback handler), the settings-derived assignments and the
`generate_session_ids = True` default. -/
def cfgPreSession (st : Settings) (a : Args) : Config :=
  let k0 := baseKwargs a
  let k1 := if (cfgGet k0 "index").isNone then setKey k0 "index" (Value.str INDEX_HTML) else k0
  let k2 := if a.tranquilize then setKey k1 "extra_patterns" (Value.patterns [(".*", true)]) else k1
  let k3 := setKey k2 "sign_sessions" (Value.bool st.sign_sessions)
  let k4 := setKey k3 "secret_key" (optStr st.secret_key_bytes)
  let k5 := setKey k4 "ssl_certfile" (optStr (st.ssl_certfile a.ssl_certfile))
  let k6 := setKey k5 "ssl_keyfile" (optStr (st.ssl_keyfile a.ssl_keyfile))
  let k7 := setKey k6 "ssl_password" (optStr st.ssl_password)
  setKey k7 "generate_session_ids" (Value.bool true)

/-- Lines 127-139: the four-way decision on `--session-ids`; an unexpected
mode raises `RuntimeError` with the concatenated message. -/
def cfgSession (st : Settings) (a : Args) : Except String Config :=
  let c := cfgPreSession st a
  match a.session_ids with
  | Option.none => Except.ok c
  | some "unsigned" => Except.ok (setKey c "sign_sessions" (Value.bool false))
  | some "signed" => Except.ok (setKey c "sign_sessions" (Value.bool true))
  | some "external-signed" =>
      Except.ok (setKey (setKey c "sign_sessions" (Value.bool true))
        "generate_session_ids" (Value.bool false))
  | some m => Except.error ("argparse should have filtered out --session-ids mode " ++ m)

/-- Lines 145-155: auth provider (module-backed when the resolved path is
truthy, otherwise `NullAuth`), xsrf cookies, cookie secret, the negated
`disable` flags, and `autoreload = (args.dev is not None)`. -/
def cfgFinal (st : Settings) (a : Args) (c : Config) : Config :=
  let c1 := setKey c "auth_provider"
      (match st.auth_module a.auth_module with
       | some p => if p.isEmpty then Value.nullAuth else Value.authModule p
       | Option.none => Value.nullAuth)
  let c2 := setKey c1 "xsrf_cookies" (Value.bool (st.xsrf_cookies a.enable_xsrf_cookies))
  let c3 := setKey c2 "cookie_secret" (optStr (st.cookie_secret a.cookie_secret))
  let c4 := setKey c3 "use_index" (Value.bool (!a.disable_index))
  let c5 := setKey c4 "redirect_root" (Value.bool (!a.disable_index_redirect))
  setKey c5 "autoreload" (Value.bool a.dev.isSome)

/-- Lines 178-186: the dev-mode block, followed by the hand-off to server
construction.  `args.files[0]` on an empty list is the uncaught
`IndexError`. -/
def devAndRun (env : Env) (a : Args) (apps : List (String × App)) (c : Config) : Outcome :=
  if a.dev.isSome then
    if apps.length ≠ 1 then Outcome.fatal (Fatal.die devDieMsg) []
    else
      let ev0 : List Event :=
        if cfgGet c "num_procs" ≠ some (Value.int 1) then [Event.info numProcsMsg] else []
      let c2 := if cfgGet c "num_procs" ≠ some (Value.int 1) then setKey c "num_procs" (Value.int 1) else c
      match a.files with
      | [] => Outcome.fatal Fatal.indexError ev0
      | f0 :: _ =>
          Outcome.run apps c2
            (ev0 ++ find_autoreload_targets env f0
                 ++ add_optional_autoreload_files env (a.dev.getD []))
  else Outcome.run apps c []

/-- `Serve.invoke`, lines 60-186: route-table resolution, kwargs resolution,
the session-ids decision, the secret-key invariant check
(`server_kwargs['sign_sessions'] and not server_kwargs['secret_key']`), the
remaining settings-derived fields, and the dev-mode block. -/
def invoke (env : Env) (st : Settings) (a : Args) : Outcome :=
  let applications := resolveApplications env a
  match cfgSession st a with
  | Except.error m => Outcome.fatal (Fatal.runtimeError m) []
  | Except.ok c =>
      if cfgGetTruthy c "sign_sessions" && !(cfgGetTruthy c "secret_key") then
        Outcome.fatal (Fatal.die secretKeyDieMsg) []
      else devAndRun env a applications (cfgFinal st a c)

/-- The signing flag the four-way decision of lines 121-139 resolves to, as a
function of the settings default and the `--session-ids` mode (`none` for the
unreachable invalid mode, which raises before the flag is used). -/
def resolvedSignSessions (st : Settings) (sid : Option String) : Option Bool :=
  match sid with
  | Option.none => some st.sign_sessions
  | some "unsigned" => some false
  | some "signed" => some true
  | some "external-signed" => some true
  | some _ => Option.none

/-- The paths registered with the autoreload watcher in an event trace. -/
def watchedEvents : List Event → List String
  | [] => []
  | Event.watch p :: rest => p :: watchedEvents rest
  | Event.info _ :: rest => watchedEvents rest
  | Event.warning _ :: rest => watchedEvents rest

/-- Whether the bootstrap terminated before constructing a server. -/
def isFatal : Outcome → Bool
  | Outcome.fatal _ _ => true
  | Outcome.run _ _ _ => false

/-- A settings snapshot with nothing configured in the environment. -/
def st0 : Settings where
  sign_sessions := false
  secret_key_bytes := Option.none
  ssl_certfile := fun d => d
  ssl_keyfile := fun d => d
  ssl_password := Option.none
  auth_module := fun d => d
  xsrf_cookies := fun b => b
  cookie_secret := fun d => d

/-- Settings with session signing enabled but no secret key resolvable. -/
def stSign : Settings := { st0 with sign_sessions := true }

/-- An environment in which the external application builder returns an empty
mapping and no path resolves in the filesystem. -/
def env0 : Env where
  globFn := fun _ => []
  buildApps := fun _ _ => []
  abspath := fun s => "/" ++ s
  pathEntry := fun _ => Option.none

/-- An environment whose application builder discovers two applications. -/
def envTwo : Env where
  globFn := fun _ => []
  buildApps := fun _ _ => [("/a", App.ofHandler "a.py"), ("/b", App.ofHandler "b.py")]
  abspath := fun s => "/" ++ s
  pathEntry := fun _ => Option.none

/-- Children of a small directory tree: matching and non-matching files at
two depths. -/
def tree1Children : EntryList :=
  EntryList.cons (Entry.file "a.html") (EntryList.cons (Entry.file "b.txt")
    (EntryList.cons (Entry.dir "sub" (EntryList.cons (Entry.file "c.css")
      (EntryList.cons (Entry.file "d.yaml") (EntryList.cons (Entry.file "e.py")
        EntryList.nil)))) EntryList.nil))

/-- A small directory tree rooted at a directory named `app`. -/
def tree1 : Entry := Entry.dir "app" tree1Children

/-- An environment that resolves the absolute path of `app` to `tree1`. -/
def env1 : Env where
  globFn := fun _ => []
  buildApps := fun _ _ => []
  abspath := fun s => "/" ++ s
  pathEntry := fun s => if s = "/app" then some tree1 else Option.none

/-- A fully default argument record (no optional flag supplied). -/
def a0 : Args where
  files := []
  glob := false
  appArgs := []
  port := Option.none
  address := Option.none
  allow_websocket_origin := Option.none
  num_procs := 1
  prefixArg := Option.none
  index := Option.none
  keep_alive := Option.none
  check_unused_sessions := Option.none
  unused_session_lifetime := Option.none
  stats_log_frequency := Option.none
  mem_log_frequency := Option.none
  use_xheaders := false
  websocket_max_message_size := Option.none
  include_cookies := Option.none
  include_headers := Option.none
  exclude_cookies := Option.none
  exclude_headers := Option.none
  session_token_expiration := Option.none
  session_ids := Option.none
  tranquilize := false
  dev := Option.none
  showArg := false
  disable_index := false
  disable_index_redirect := false
  ssl_certfile := Option.none
  ssl_keyfile := Option.none
  auth_module := Option.none
  enable_xsrf_cookies := false
  cookie_secret := Option.none

/-- Arguments requesting `--session-ids unsigned`. -/
def aUnsigned : Args := { a0 with session_ids := some "unsigned" }

/-- Arguments requesting dev mode with no file arguments. -/
def aDev : Args := { a0 with dev := some [] }

/-- Arguments requesting dev mode for one app with four worker processes. -/
def aC9 : Args := { a0 with dev := some [], files := ["app"], num_procs := 4 }

/-- Arguments with two duration-style flags supplied. -/
def aDur : Args := { a0 with keep_alive := some 5000, stats_log_frequency := some 7 }

/-- Arguments with `--tranquilize` set. -/
def aTranq : Args := { a0 with tranquilize := true }

theorem cfgGet_setKey_self (d : Config) (k : String) (v : Value) :
    cfgGet (setKey d k v) k = some v := by
  induction d with
  | nil => simp [setKey, cfgGet]
  | cons p rest ih =>
      by_cases h : p.1 = k
      · simp [setKey, h, cfgGet]
      · simp [setKey, h, cfgGet, ih]

theorem cfgGet_setKey_ne (d : Config) (k : String) (v : Value) (k' : String)
    (h : k' ≠ k) : cfgGet (setKey d k v) k' = cfgGet d k' := by
  have h' : ¬(k = k') := fun he => h he.symm
  induction d with
  | nil => simp [setKey, cfgGet, h']
  | cons p rest ih =>
      by_cases hp : p.1 = k
      · rw [setKey, if_pos hp, cfgGet, if_neg h', cfgGet, hp, if_neg h']
      · by_cases hp' : p.1 = k'
        · rw [setKey, if_neg hp, cfgGet, if_pos hp', cfgGet, if_pos hp']
        · rw [setKey, if_neg hp, cfgGet, if_neg hp', cfgGet, if_neg hp', ih]

theorem mem_setKey (d : Config) (k : String) (v : Value) (p : String × Value) :
    p ∈ setKey d k v → p = (k, v) ∨ p ∈ d := by
  induction d with
  | nil =>
      intro h
      rw [setKey] at h
      exact Or.inl (List.mem_singleton.mp h)
  | cons q rest ih =>
      intro h
      rw [setKey] at h
      by_cases hq : q.1 = k
      · rw [if_pos hq] at h
        rcases List.mem_cons.mp h with h' | h'
        · exact Or.inl h'
        · exact Or.inr (List.mem_cons_of_mem _ h')
      · rw [if_neg hq] at h
        rcases List.mem_cons.mp h with h' | h'
        · exact Or.inr (h' ▸ List.mem_cons_self q rest)
        · rcases ih h' with h'' | h''
          · exact Or.inl h''
          · exact Or.inr (List.mem_cons_of_mem _ h'')

theorem cfgGet_cfgOfEntries_ne (k1 : String) (v? : Option Value)
    (l : List (String × Option Value)) (k : String) (h : k1 ≠ k) :
    cfgGet (cfgOfEntries ((k1, v?) :: l)) k = cfgGet (cfgOfEntries l) k := by
  cases v? <;> simp [cfgOfEntries, cfgGet, h]

theorem cfgGet_cfgOfEntries_none (l : List (String × Option Value)) (k : String) :
    (∀ p ∈ l, p.1 ≠ k) → cfgGet (cfgOfEntries l) k = Option.none := by
  induction l with
  | nil => intro _; simp [cfgOfEntries, cfgGet]
  | cons p rest ih =>
      intro h
      have hp : p.1 ≠ k := h p (List.mem_cons_self p rest)
      have hstep : cfgGet (cfgOfEntries (p :: rest)) k = cfgGet (cfgOfEntries rest) k := by
        obtain ⟨k1, v?⟩ := p
        exact cfgGet_cfgOfEntries_ne k1 v? rest k hp
      rw [hstep]
      exact ih fun q hq => h q (List.mem_cons_of_mem _ hq)

theorem cfgGet_cfgOfEntries_head (k : String) (v? : Option Value)
    (l : List (String × Option Value)) (h : ∀ p ∈ l, p.1 ≠ k) :
    cfgGet (cfgOfEntries ((k, v?) :: l)) k = v? := by
  cases v? with
  | none => simpa [cfgOfEntries] using cfgGet_cfgOfEntries_none l k h
  | some v => simp [cfgOfEntries, cfgGet]

theorem mem_cfgOfEntries (l : List (String × Option Value)) (p : String × Value) :
    p ∈ cfgOfEntries l → (p.1, some p.2) ∈ l := by
  induction l with
  | nil => intro h; simp [cfgOfEntries] at h
  | cons q rest ih =>
      intro h
      obtain ⟨k1, v?⟩ := q
      cases v? with
      | none =>
          simp only [cfgOfEntries, List.filterMap_cons, Option.map_none'] at h
          exact List.mem_cons_of_mem _ (ih h)
      | some v =>
          simp only [cfgOfEntries, List.filterMap_cons, Option.map_some'] at h
          rcases List.mem_cons.mp h with h' | h'
          · rw [h']; exact List.mem_cons_self _ _
          · exact List.mem_cons_of_mem _ (ih h')

theorem keysNe (l : List (String × Option Value)) (k : String)
    (h : k ∉ l.map Prod.fst) : ∀ p ∈ l, p.1 ≠ k := by
  intro p hp he
  exact h (he ▸ List.mem_map_of_mem Prod.fst hp)

theorem baseKwargs_absent (a : Args) (k : String)
    (h : k ∉ (kwargEntries a).map Prod.fst) :
    cfgGet (baseKwargs a) k = Option.none :=
  cfgGet_cfgOfEntries_none _ _ (keysNe _ _ h)

theorem baseKwargs_num_procs (a : Args) :
    cfgGet (baseKwargs a) "num_procs" = some (Value.int a.num_procs) := by
  rw [baseKwargs, kwargEntries]
  rw [cfgGet_cfgOfEntries_ne _ _ _ _ (by decide)]
  rw [cfgGet_cfgOfEntries_ne _ _ _ _ (by decide)]
  rw [cfgGet_cfgOfEntries_ne _ _ _ _ (by decide)]
  exact cfgGet_cfgOfEntries_head _ _ _ (keysNe _ _ (by simp))

theorem baseKwargs_index (a : Args) :
    cfgGet (baseKwargs a) "index" = a.index.map Value.str := by
  rw [baseKwargs, kwargEntries]
  rw [cfgGet_cfgOfEntries_ne _ _ _ _ (by decide)]
  rw [cfgGet_cfgOfEntries_ne _ _ _ _ (by decide)]
  rw [cfgGet_cfgOfEntries_ne _ _ _ _ (by decide)]
  rw [cfgGet_cfgOfEntries_ne _ _ _ _ (by decide)]
  rw [cfgGet_cfgOfEntries_ne _ _ _ _ (by decide)]
  exact cfgGet_cfgOfEntries_head _ _ _ (keysNe _ _ (by simp))

theorem baseKwargs_keep_alive (a : Args) :
    cfgGet (baseKwargs a) "keep_alive_milliseconds" = a.keep_alive.map Value.int := by
  rw [baseKwargs, kwargEntries]
  rw [cfgGet_cfgOfEntries_ne _ _ _ _ (by decide)]
  rw [cfgGet_cfgOfEntries_ne _ _ _ _ (by decide)]
  rw [cfgGet_cfgOfEntries_ne _ _ _ _ (by decide)]
  rw [cfgGet_cfgOfEntries_ne _ _ _ _ (by decide)]
  rw [cfgGet_cfgOfEntries_ne _ _ _ _ (by decide)]
  rw [cfgGet_cfgOfEntries_ne _ _ _ _ (by decide)]
  exact cfgGet_cfgOfEntries_head _ _ _ (keysNe _ _ (by simp))

theorem baseKwargs_check_unused (a : Args) :
    cfgGet (baseKwargs a) "check_unused_sessions_milliseconds" =
      a.check_unused_sessions.map Value.int := by
  rw [baseKwargs, kwargEntries]
  rw [cfgGet_cfgOfEntries_ne _ _ _ _ (by decide)]
  rw [cfgGet_cfgOfEntries_ne _ _ _ _ (by decide)]
  rw [cfgGet_cfgOfEntries_ne _ _ _ _ (by decide)]
  rw [cfgGet_cfgOfEntries_ne _ _ _ _ (by decide)]
  rw [cfgGet_cfgOfEntries_ne _ _ _ _ (by decide)]
  rw [cfgGet_cfgOfEntries_ne _ _ _ _ (by decide)]
  rw [cfgGet_cfgOfEntries_ne _ _ _ _ (by decide)]
  exact cfgGet_cfgOfEntries_head _ _ _ (keysNe _ _ (by simp))

theorem baseKwargs_unused_lifetime (a : Args) :
    cfgGet (baseKwargs a) "unused_session_lifetime_milliseconds" =
      a.unused_session_lifetime.map Value.int := by
  rw [baseKwargs, kwargEntries]
  rw [cfgGet_cfgOfEntries_ne _ _ _ _ (by decide)]
  rw [cfgGet_cfgOfEntries_ne _ _ _ _ (by decide)]
  rw [cfgGet_cfgOfEntries_ne _ _ _ _ (by decide)]
  rw [cfgGet_cfgOfEntries_ne _ _ _ _ (by decide)]
  rw [cfgGet_cfgOfEntries_ne _ _ _ _ (by decide)]
  rw [cfgGet_cfgOfEntries_ne _ _ _ _ (by decide)]
  rw [cfgGet_cfgOfEntries_ne _ _ _ _ (by decide)]
  rw [cfgGet_cfgOfEntries_ne _ _ _ _ (by decide)]
  exact cfgGet_cfgOfEntries_head _ _ _ (keysNe _ _ (by simp))

theorem baseKwargs_stats_freq (a : Args) :
    cfgGet (baseKwargs a) "stats_log_frequency_milliseconds" =
      a.stats_log_frequency.map Value.int := by
  rw [baseKwargs, kwargEntries]
  rw [cfgGet_cfgOfEntries_ne _ _ _ _ (by decide)]
  rw [cfgGet_cfgOfEntries_ne _ _ _ _ (by decide)]
  rw [cfgGet_cfgOfEntries_ne _ _ _ _ (by decide)]
  rw [cfgGet_cfgOfEntries_ne _ _ _ _ (by decide)]
  rw [cfgGet_cfgOfEntries_ne _ _ _ _ (by decide)]
  rw [cfgGet_cfgOfEntries_ne _ _ _ _ (by decide)]
  rw [cfgGet_cfgOfEntries_ne _ _ _ _ (by decide)]
  rw [cfgGet_cfgOfEntries_ne _ _ _ _ (by decide)]
  rw [cfgGet_cfgOfEntries_ne _ _ _ _ (by decide)]
  exact cfgGet_cfgOfEntries_head _ _ _ (keysNe _ _ (by simp))

theorem baseKwargs_mem_freq (a : Args) :
    cfgGet (baseKwargs a) "mem_log_frequency_milliseconds" =
      a.mem_log_frequency.map Value.int := by
  rw [baseKwargs, kwargEntries]
  rw [cfgGet_cfgOfEntries_ne _ _ _ _ (by decide)]
  rw [cfgGet_cfgOfEntries_ne _ _ _ _ (by decide)]
  rw [cfgGet_cfgOfEntries_ne _ _ _ _ (by decide)]
  rw [cfgGet_cfgOfEntries_ne _ _ _ _ (by decide)]
  rw [cfgGet_cfgOfEntries_ne _ _ _ _ (by decide)]
  rw [cfgGet_cfgOfEntries_ne _ _ _ _ (by decide)]
  rw [cfgGet_cfgOfEntries_ne _ _ _ _ (by decide)]
  rw [cfgGet_cfgOfEntries_ne _ _ _ _ (by decide)]
  rw [cfgGet_cfgOfEntries_ne _ _ _ _ (by decide)]
  rw [cfgGet_cfgOfEntries_ne _ _ _ _ (by decide)]
  exact cfgGet_cfgOfEntries_head _ _ _ (keysNe _ _ (by simp))

theorem baseKwargs_port (a : Args) :
    cfgGet (baseKwargs a) "port" = a.port.map Value.int := by
  rw [baseKwargs, kwargEntries]
  exact cfgGet_cfgOfEntries_head _ _ _ (keysNe _ _ (by simp))

theorem baseKwargs_address (a : Args) :
    cfgGet (baseKwargs a) "address" = a.address.map Value.str := by
  rw [baseKwargs, kwargEntries]
  rw [cfgGet_cfgOfEntries_ne _ _ _ _ (by decide)]
  exact cfgGet_cfgOfEntries_head _ _ _ (keysNe _ _ (by simp))

theorem baseKwargs_allow_origin (a : Args) :
    cfgGet (baseKwargs a) "allow_websocket_origin" = a.allow_websocket_origin.map Value.strList := by
  rw [baseKwargs, kwargEntries]
  rw [cfgGet_cfgOfEntries_ne _ _ _ _ (by decide)]
  rw [cfgGet_cfgOfEntries_ne _ _ _ _ (by decide)]
  exact cfgGet_cfgOfEntries_head _ _ _ (keysNe _ _ (by simp))

theorem baseKwargs_prefixArg (a : Args) :
    cfgGet (baseKwargs a) "prefix" = a.prefixArg.map Value.str := by
  rw [baseKwargs, kwargEntries]
  rw [cfgGet_cfgOfEntries_ne _ _ _ _ (by decide)]
  rw [cfgGet_cfgOfEntries_ne _ _ _ _ (by decide)]
  rw [cfgGet_cfgOfEntries_ne _ _ _ _ (by decide)]
  rw [cfgGet_cfgOfEntries_ne _ _ _ _ (by decide)]
  exact cfgGet_cfgOfEntries_head _ _ _ (keysNe _ _ (by simp))

theorem baseKwargs_ws_max (a : Args) :
    cfgGet (baseKwargs a) "websocket_max_message_size" = a.websocket_max_message_size.map Value.int := by
  rw [baseKwargs, kwargEntries]
  rw [cfgGet_cfgOfEntries_ne _ _ _ _ (by decide)]
  rw [cfgGet_cfgOfEntries_ne _ _ _ _ (by decide)]
  rw [cfgGet_cfgOfEntries_ne _ _ _ _ (by decide)]
  rw [cfgGet_cfgOfEntries_ne _ _ _ _ (by decide)]
  rw [cfgGet_cfgOfEntries_ne _ _ _ _ (by decide)]
  rw [cfgGet_cfgOfEntries_ne _ _ _ _ (by decide)]
  rw [cfgGet_cfgOfEntries_ne _ _ _ _ (by decide)]
  rw [cfgGet_cfgOfEntries_ne _ _ _ _ (by decide)]
  rw [cfgGet_cfgOfEntries_ne _ _ _ _ (by decide)]
  rw [cfgGet_cfgOfEntries_ne _ _ _ _ (by decide)]
  rw [cfgGet_cfgOfEntries_ne _ _ _ _ (by decide)]
  rw [cfgGet_cfgOfEntries_ne _ _ _ _ (by decide)]
  exact cfgGet_cfgOfEntries_head _ _ _ (keysNe _ _ (by simp))

theorem baseKwargs_include_cookies (a : Args) :
    cfgGet (baseKwargs a) "include_cookies" = a.include_cookies.map Value.strList := by
  rw [baseKwargs, kwargEntries]
  rw [cfgGet_cfgOfEntries_ne _ _ _ _ (by decide)]
  rw [cfgGet_cfgOfEntries_ne _ _ _ _ (by decide)]
  rw [cfgGet_cfgOfEntries_ne _ _ _ _ (by decide)]
  rw [cfgGet_cfgOfEntries_ne _ _ _ _ (by decide)]
  rw [cfgGet_cfgOfEntries_ne _ _ _ _ (by decide)]
  rw [cfgGet_cfgOfEntries_ne _ _ _ _ (by decide)]
  rw [cfgGet_cfgOfEntries_ne _ _ _ _ (by decide)]
  rw [cfgGet_cfgOfEntries_ne _ _ _ _ (by decide)]
  rw [cfgGet_cfgOfEntries_ne _ _ _ _ (by decide)]
  rw [cfgGet_cfgOfEntries_ne _ _ _ _ (by decide)]
  rw [cfgGet_cfgOfEntries_ne _ _ _ _ (by decide)]
  rw [cfgGet_cfgOfEntries_ne _ _ _ _ (by decide)]
  rw [cfgGet_cfgOfEntries_ne _ _ _ _ (by decide)]
  exact cfgGet_cfgOfEntries_head _ _ _ (keysNe _ _ (by simp))

theorem baseKwargs_include_headers (a : Args) :
    cfgGet (baseKwargs a) "include_headers" = a.include_headers.map Value.strList := by
  rw [baseKwargs, kwargEntries]
  rw [cfgGet_cfgOfEntries_ne _ _ _ _ (by decide)]
  rw [cfgGet_cfgOfEntries_ne _ _ _ _ (by decide)]
  rw [cfgGet_cfgOfEntries_ne _ _ _ _ (by decide)]
  rw [cfgGet_cfgOfEntries_ne _ _ _ _ (by decide)]
  rw [cfgGet_cfgOfEntries_ne _ _ _ _ (by decide)]
  rw [cfgGet_cfgOfEntries_ne _ _ _ _ (by decide)]
  rw [cfgGet_cfgOfEntries_ne _ _ _ _ (by decide)]
  rw [cfgGet_cfgOfEntries_ne _ _ _ _ (by decide)]
  rw [cfgGet_cfgOfEntries_ne _ _ _ _ (by decide)]
  rw [cfgGet_cfgOfEntries_ne _ _ _ _ (by decide)]
  rw [cfgGet_cfgOfEntries_ne _ _ _ _ (by decide)]
  rw [cfgGet_cfgOfEntries_ne _ _ _ _ (by decide)]
  rw [cfgGet_cfgOfEntries_ne _ _ _ _ (by decide)]
  rw [cfgGet_cfgOfEntries_ne _ _ _ _ (by decide)]
  exact cfgGet_cfgOfEntries_head _ _ _ (keysNe _ _ (by simp))

theorem baseKwargs_exclude_cookies (a : Args) :
    cfgGet (baseKwargs a) "exclude_cookies" = a.exclude_cookies.map Value.strList := by
  rw [baseKwargs, kwargEntries]
  rw [cfgGet_cfgOfEntries_ne _ _ _ _ (by decide)]
  rw [cfgGet_cfgOfEntries_ne _ _ _ _ (by decide)]
  rw [cfgGet_cfgOfEntries_ne _ _ _ _ (by decide)]
  rw [cfgGet_cfgOfEntries_ne _ _ _ _ (by decide)]
  rw [cfgGet_cfgOfEntries_ne _ _ _ _ (by decide)]
  rw [cfgGet_cfgOfEntries_ne _ _ _ _ (by decide)]
  rw [cfgGet_cfgOfEntries_ne _ _ _ _ (by decide)]
  rw [cfgGet_cfgOfEntries_ne _ _ _ _ (by decide)]
  rw [cfgGet_cfgOfEntries_ne _ _ _ _ (by decide)]
  rw [cfgGet_cfgOfEntries_ne _ _ _ _ (by decide)]
  rw [cfgGet_cfgOfEntries_ne _ _ _ _ (by decide)]
  rw [cfgGet_cfgOfEntries_ne _ _ _ _ (by decide)]
  rw [cfgGet_cfgOfEntries_ne _ _ _ _ (by decide)]
  rw [cfgGet_cfgOfEntries_ne _ _ _ _ (by decide)]
  rw [cfgGet_cfgOfEntries_ne _ _ _ _ (by decide)]
  exact cfgGet_cfgOfEntries_head _ _ _ (keysNe _ _ (by simp))

theorem baseKwargs_exclude_headers (a : Args) :
    cfgGet (baseKwargs a) "exclude_headers" = a.exclude_headers.map Value.strList := by
  rw [baseKwargs, kwargEntries]
  rw [cfgGet_cfgOfEntries_ne _ _ _ _ (by decide)]
  rw [cfgGet_cfgOfEntries_ne _ _ _ _ (by decide)]
  rw [cfgGet_cfgOfEntries_ne _ _ _ _ (by decide)]
  rw [cfgGet_cfgOfEntries_ne _ _ _ _ (by decide)]
  rw [cfgGet_cfgOfEntries_ne _ _ _ _ (by decide)]
  rw [cfgGet_cfgOfEntries_ne _ _ _ _ (by decide)]
  rw [cfgGet_cfgOfEntries_ne _ _ _ _ (by decide)]
  rw [cfgGet_cfgOfEntries_ne _ _ _ _ (by decide)]
  rw [cfgGet_cfgOfEntries_ne _ _ _ _ (by decide)]
  rw [cfgGet_cfgOfEntries_ne _ _ _ _ (by decide)]
  rw [cfgGet_cfgOfEntries_ne _ _ _ _ (by decide)]
  rw [cfgGet_cfgOfEntries_ne _ _ _ _ (by decide)]
  rw [cfgGet_cfgOfEntries_ne _ _ _ _ (by decide)]
  rw [cfgGet_cfgOfEntries_ne _ _ _ _ (by decide)]
  rw [cfgGet_cfgOfEntries_ne _ _ _ _ (by decide)]
  rw [cfgGet_cfgOfEntries_ne _ _ _ _ (by decide)]
  exact cfgGet_cfgOfEntries_head _ _ _ (keysNe _ _ (by simp))

theorem baseKwargs_token_expiration (a : Args) :
    cfgGet (baseKwargs a) "session_token_expiration" = a.session_token_expiration.map Value.int := by
  rw [baseKwargs, kwargEntries]
  rw [cfgGet_cfgOfEntries_ne _ _ _ _ (by decide)]
  rw [cfgGet_cfgOfEntries_ne _ _ _ _ (by decide)]
  rw [cfgGet_cfgOfEntries_ne _ _ _ _ (by decide)]
  rw [cfgGet_cfgOfEntries_ne _ _ _ _ (by decide)]
  rw [cfgGet_cfgOfEntries_ne _ _ _ _ (by decide)]
  rw [cfgGet_cfgOfEntries_ne _ _ _ _ (by decide)]
  rw [cfgGet_cfgOfEntries_ne _ _ _ _ (by decide)]
  rw [cfgGet_cfgOfEntries_ne _ _ _ _ (by decide)]
  rw [cfgGet_cfgOfEntries_ne _ _ _ _ (by decide)]
  rw [cfgGet_cfgOfEntries_ne _ _ _ _ (by decide)]
  rw [cfgGet_cfgOfEntries_ne _ _ _ _ (by decide)]
  rw [cfgGet_cfgOfEntries_ne _ _ _ _ (by decide)]
  rw [cfgGet_cfgOfEntries_ne _ _ _ _ (by decide)]
  rw [cfgGet_cfgOfEntries_ne _ _ _ _ (by decide)]
  rw [cfgGet_cfgOfEntries_ne _ _ _ _ (by decide)]
  rw [cfgGet_cfgOfEntries_ne _ _ _ _ (by decide)]
  rw [cfgGet_cfgOfEntries_ne _ _ _ _ (by decide)]
  exact cfgGet_cfgOfEntries_head _ _ _ (keysNe _ _ (by simp))

theorem cfgGet_cfgPreSession_ne (st : Settings) (a : Args) (k : String)
    (h1 : k ≠ "index") (h2 : k ≠ "extra_patterns") (h3 : k ≠ "sign_sessions")
    (h4 : k ≠ "secret_key") (h5 : k ≠ "ssl_certfile") (h6 : k ≠ "ssl_keyfile")
    (h7 : k ≠ "ssl_password") (h8 : k ≠ "generate_session_ids") :
    cfgGet (cfgPreSession st a) k = cfgGet (baseKwargs a) k := by
  simp only [cfgPreSession]
  rw [cfgGet_setKey_ne _ _ _ _ h8, cfgGet_setKey_ne _ _ _ _ h7,
      cfgGet_setKey_ne _ _ _ _ h6, cfgGet_setKey_ne _ _ _ _ h5,
      cfgGet_setKey_ne _ _ _ _ h4, cfgGet_setKey_ne _ _ _ _ h3]
  split
  · rw [cfgGet_setKey_ne _ _ _ _ h2]
    split
    · rw [cfgGet_setKey_ne _ _ _ _ h1]
    · rfl
  · split
    · rw [cfgGet_setKey_ne _ _ _ _ h1]
    · rfl

theorem cfgGet_cfgPreSession_generate (st : Settings) (a : Args) :
    cfgGet (cfgPreSession st a) "generate_session_ids" = some (Value.bool true) := by
  simp only [cfgPreSession]
  exact cfgGet_setKey_self _ _ _

theorem cfgGet_cfgPreSession_ssl_password (st : Settings) (a : Args) :
    cfgGet (cfgPreSession st a) "ssl_password" = some (optStr st.ssl_password) := by
  simp only [cfgPreSession]
  rw [cfgGet_setKey_ne _ _ _ _ (by decide)]
  exact cfgGet_setKey_self _ _ _

theorem cfgGet_cfgPreSession_ssl_keyfile (st : Settings) (a : Args) :
    cfgGet (cfgPreSession st a) "ssl_keyfile" =
      some (optStr (st.ssl_keyfile a.ssl_keyfile)) := by
  simp only [cfgPreSession]
  rw [cfgGet_setKey_ne _ _ _ _ (by decide), cfgGet_setKey_ne _ _ _ _ (by decide)]
  exact cfgGet_setKey_self _ _ _

theorem cfgGet_cfgPreSession_ssl_certfile (st : Settings) (a : Args) :
    cfgGet (cfgPreSession st a) "ssl_certfile" =
      some (optStr (st.ssl_certfile a.ssl_certfile)) := by
  simp only [cfgPreSession]
  rw [cfgGet_setKey_ne _ _ _ _ (by decide), cfgGet_setKey_ne _ _ _ _ (by decide),
      cfgGet_setKey_ne _ _ _ _ (by decide)]
  exact cfgGet_setKey_self _ _ _

theorem cfgGet_cfgPreSession_secret (st : Settings) (a : Args) :
    cfgGet (cfgPreSession st a) "secret_key" = some (optStr st.secret_key_bytes) := by
  simp only [cfgPreSession]
  rw [cfgGet_setKey_ne _ _ _ _ (by decide), cfgGet_setKey_ne _ _ _ _ (by decide),
      cfgGet_setKey_ne _ _ _ _ (by decide), cfgGet_setKey_ne _ _ _ _ (by decide)]
  exact cfgGet_setKey_self _ _ _

theorem cfgGet_cfgPreSession_sign (st : Settings) (a : Args) :
    cfgGet (cfgPreSession st a) "sign_sessions" = some (Value.bool st.sign_sessions) := by
  simp only [cfgPreSession]
  rw [cfgGet_setKey_ne _ _ _ _ (by decide), cfgGet_setKey_ne _ _ _ _ (by decide),
      cfgGet_setKey_ne _ _ _ _ (by decide), cfgGet_setKey_ne _ _ _ _ (by decide),
      cfgGet_setKey_ne _ _ _ _ (by decide)]
  exact cfgGet_setKey_self _ _ _

theorem cfgGet_cfgPreSession_index (st : Settings) (a : Args) :
    cfgGet (cfgPreSession st a) "index" =
      some (Value.str (a.index.getD INDEX_HTML)) := by
  simp only [cfgPreSession]
  rw [cfgGet_setKey_ne _ _ _ _ (by decide), cfgGet_setKey_ne _ _ _ _ (by decide),
      cfgGet_setKey_ne _ _ _ _ (by decide), cfgGet_setKey_ne _ _ _ _ (by decide),
      cfgGet_setKey_ne _ _ _ _ (by decide), cfgGet_setKey_ne _ _ _ _ (by decide)]
  have hsplit : ∀ c : Config,
      cfgGet c "index" = some (Value.str (a.index.getD INDEX_HTML)) →
      cfgGet (if a.tranquilize then setKey c "extra_patterns" (Value.patterns [(".*", true)]) else c)
        "index" = some (Value.str (a.index.getD INDEX_HTML)) := by
    intro c hc
    split
    · rw [cfgGet_setKey_ne _ _ _ _ (by decide)]; exact hc
    · exact hc
  apply hsplit
  cases hidx : a.index with
  | none =>
      have hb : cfgGet (baseKwargs a) "index" = Option.none := by
        rw [baseKwargs_index, hidx]; rfl
      rw [hb]
      simp only [Option.isNone_none, if_pos]
      rw [cfgGet_setKey_self]
      rfl
  | some s =>
      have hb : cfgGet (baseKwargs a) "index" = some (Value.str s) := by
        rw [baseKwargs_index, hidx]; rfl
      rw [hb]
      simp only [Option.isNone_some]
      rw [if_neg (by simp)]
      rw [hb]
      rfl

theorem cfgGet_cfgPreSession_extra (st : Settings) (a : Args) :
    cfgGet (cfgPreSession st a) "extra_patterns" =
      (if a.tranquilize then some (Value.patterns [(".*", true)]) else Option.none) := by
  simp only [cfgPreSession]
  rw [cfgGet_setKey_ne _ _ _ _ (by decide), cfgGet_setKey_ne _ _ _ _ (by decide),
      cfgGet_setKey_ne _ _ _ _ (by decide), cfgGet_setKey_ne _ _ _ _ (by decide),
      cfgGet_setKey_ne _ _ _ _ (by decide), cfgGet_setKey_ne _ _ _ _ (by decide)]
  by_cases ht : a.tranquilize
  · rw [if_pos ht, if_pos ht]
    exact cfgGet_setKey_self _ _ _
  · rw [if_neg ht, if_neg ht]
    split
    · rw [cfgGet_setKey_ne _ _ _ _ (by decide)]
      exact baseKwargs_absent a _ (by simp [kwargEntries])
    · exact baseKwargs_absent a _ (by simp [kwargEntries])

theorem cfgSession_none (st : Settings) (a : Args) (h : a.session_ids = Option.none) :
    cfgSession st a = Except.ok (cfgPreSession st a) := by
  rw [cfgSession, h]

theorem cfgSession_unsigned (st : Settings) (a : Args)
    (h : a.session_ids = some "unsigned") :
    cfgSession st a =
      Except.ok (setKey (cfgPreSession st a) "sign_sessions" (Value.bool false)) := by
  rw [cfgSession, h]
  rfl

theorem cfgSession_signed (st : Settings) (a : Args)
    (h : a.session_ids = some "signed") :
    cfgSession st a =
      Except.ok (setKey (cfgPreSession st a) "sign_sessions" (Value.bool true)) := by
  rw [cfgSession, h]
  rfl

theorem cfgSession_external (st : Settings) (a : Args)
    (h : a.session_ids = some "external-signed") :
    cfgSession st a =
      Except.ok (setKey (setKey (cfgPreSession st a) "sign_sessions" (Value.bool true))
        "generate_session_ids" (Value.bool false)) := by
  rw [cfgSession, h]
  rfl

theorem cfgSession_invalid (st : Settings) (a : Args) (m : String)
    (h : a.session_ids = some m) (h1 : m ≠ "unsigned") (h2 : m ≠ "signed")
    (h3 : m ≠ "external-signed") :
    cfgSession st a =
      Except.error ("argparse should have filtered out --session-ids mode " ++ m) := by
  rw [cfgSession, h]
  split
  · rename_i heq; exact absurd heq (by simp)
  · rename_i heq; injection heq with hm; exact absurd hm h1
  · rename_i heq; injection heq with hm; exact absurd hm h2
  · rename_i heq; injection heq with hm; exact absurd hm h3
  · rename_i heq; injection heq with hm; rw [hm]

theorem cfgSession_ok_ne (st : Settings) (a : Args) (c : Config) (k : String)
    (h : cfgSession st a = Except.ok c) (h1 : k ≠ "sign_sessions")
    (h2 : k ≠ "generate_session_ids") :
    cfgGet c k = cfgGet (cfgPreSession st a) k := by
  cases hsid : a.session_ids with
  | none =>
      rw [cfgSession_none st a hsid] at h
      injection h with h'
      rw [← h']
  | some m =>
      by_cases hu : m = "unsigned"
      · rw [hu] at hsid
        rw [cfgSession_unsigned st a hsid] at h
        injection h with h'
        rw [← h', cfgGet_setKey_ne _ _ _ _ h1]
      · by_cases hs : m = "signed"
        · rw [hs] at hsid
          rw [cfgSession_signed st a hsid] at h
          injection h with h'
          rw [← h', cfgGet_setKey_ne _ _ _ _ h1]
        · by_cases he : m = "external-signed"
          · rw [he] at hsid
            rw [cfgSession_external st a hsid] at h
            injection h with h'
            rw [← h', cfgGet_setKey_ne _ _ _ _ h2, cfgGet_setKey_ne _ _ _ _ h1]
          · rw [cfgSession_invalid st a m hsid hu hs he] at h
            exact absurd h (by simp)

theorem cfgSession_ok_sign (st : Settings) (a : Args) (c : Config)
    (h : cfgSession st a = Except.ok c) :
    ∃ b, resolvedSignSessions st a.session_ids = some b ∧
      cfgGet c "sign_sessions" = some (Value.bool b) := by
  cases hsid : a.session_ids with
  | none =>
      rw [cfgSession_none st a hsid] at h
      injection h with h'
      exact ⟨st.sign_sessions, by rfl, by
        rw [← h', cfgGet_cfgPreSession_sign]⟩
  | some m =>
      by_cases hu : m = "unsigned"
      · rw [hu] at hsid
        rw [cfgSession_unsigned st a hsid] at h
        injection h with h'
        exact ⟨false, by rw [hu]; rfl, by rw [← h', cfgGet_setKey_self]⟩
      · by_cases hs : m = "signed"
        · rw [hs] at hsid
          rw [cfgSession_signed st a hsid] at h
          injection h with h'
          exact ⟨true, by rw [hs]; rfl, by rw [← h', cfgGet_setKey_self]⟩
        · by_cases he : m = "external-signed"
          · rw [he] at hsid
            rw [cfgSession_external st a hsid] at h
            injection h with h'
            refine ⟨true, by rw [he]; rfl, ?_⟩
            rw [← h', cfgGet_setKey_ne _ _ _ _ (by decide), cfgGet_setKey_self]
          · rw [cfgSession_invalid st a m hsid hu hs he] at h
            exact absurd h (by simp)

theorem cfgGetTruthy_of_get (c : Config) (k : String) (v : Value)
    (h : cfgGet c k = some v) : cfgGetTruthy c k = !(pyFalsy v) := by
  rw [cfgGetTruthy, h]

theorem cfgGet_cfgFinal_ne (st : Settings) (a : Args) (c : Config) (k : String)
    (h1 : k ≠ "auth_provider") (h2 : k ≠ "xsrf_cookies") (h3 : k ≠ "cookie_secret")
    (h4 : k ≠ "use_index") (h5 : k ≠ "redirect_root") (h6 : k ≠ "autoreload") :
    cfgGet (cfgFinal st a c) k = cfgGet c k := by
  simp only [cfgFinal]
  rw [cfgGet_setKey_ne _ _ _ _ h6, cfgGet_setKey_ne _ _ _ _ h5,
      cfgGet_setKey_ne _ _ _ _ h4, cfgGet_setKey_ne _ _ _ _ h3,
      cfgGet_setKey_ne _ _ _ _ h2, cfgGet_setKey_ne _ _ _ _ h1]

theorem cfgGet_cfgFinal_cookie_secret (st : Settings) (a : Args) (c : Config) :
    cfgGet (cfgFinal st a c) "cookie_secret" =
      some (optStr (st.cookie_secret a.cookie_secret)) := by
  simp only [cfgFinal]
  rw [cfgGet_setKey_ne _ _ _ _ (by decide), cfgGet_setKey_ne _ _ _ _ (by decide),
      cfgGet_setKey_ne _ _ _ _ (by decide)]
  exact cfgGet_setKey_self _ _ _

theorem resolveApplications_ne_nil (env : Env) (a : Args) :
    resolveApplications env a ≠ [] := by
  rw [resolveApplications]
  split
  · simp
  · rename_i h
    intro hnil
    exact h (by rw [hnil]; rfl)

theorem invoke_run_inv (env : Env) (st : Settings) (a : Args)
    (apps : List (String × App)) (cfg : Config) (tr : List Event)
    (h : invoke env st a = Outcome.run apps cfg tr) :
    apps = resolveApplications env a ∧
    ∃ c, cfgSession st a = Except.ok c ∧
      ((a.dev.isSome = false ∧ cfg = cfgFinal st a c ∧ tr = []) ∨
       (a.dev.isSome = true ∧ apps.length = 1 ∧
        ∃ f0 rest, a.files = f0 :: rest ∧
        cfg = (if cfgGet (cfgFinal st a c) "num_procs" ≠ some (Value.int 1)
               then setKey (cfgFinal st a c) "num_procs" (Value.int 1)
               else cfgFinal st a c) ∧
        tr = (if cfgGet (cfgFinal st a c) "num_procs" ≠ some (Value.int 1)
              then [Event.info numProcsMsg] else [])
             ++ find_autoreload_targets env f0
             ++ add_optional_autoreload_files env (a.dev.getD []))) := by
  simp only [invoke] at h
  split at h
  · exact absurd h (by simp)
  · rename_i c heq
    split at h
    · exact absurd h (by simp)
    · simp only [devAndRun] at h
      split at h
      · rename_i hdev
        split at h
        · exact absurd h (by simp)
        · rename_i hlen
          cases hf : a.files with
          | nil =>
              rw [hf] at h
              exact absurd h (by simp)
          | cons f0 rest =>
              rw [hf] at h
              rw [Outcome.run.injEq] at h
              obtain ⟨h1, h2, h3⟩ := h
              refine ⟨h1.symm, c, heq, Or.inr ⟨hdev, ?_, f0, rest, rfl, h2.symm, h3.symm⟩⟩
              rw [h1] at hlen
              omega
      · rename_i hdev
        rw [Outcome.run.injEq] at h
        obtain ⟨h1, h2, h3⟩ := h
        exact ⟨h1.symm, c, heq,
          Or.inl ⟨by simpa using hdev, h2.symm, h3.symm⟩⟩

theorem invoke_error (env : Env) (st : Settings) (a : Args) (m : String)
    (h : cfgSession st a = Except.error m) :
    invoke env st a = Outcome.fatal (Fatal.runtimeError m) [] := by
  simp only [invoke]
  rw [h]

theorem invoke_ok (env : Env) (st : Settings) (a : Args) (c : Config)
    (h : cfgSession st a = Except.ok c) :
    invoke env st a =
      (if cfgGetTruthy c "sign_sessions" && !(cfgGetTruthy c "secret_key")
       then Outcome.fatal (Fatal.die secretKeyDieMsg) []
       else devAndRun env a (resolveApplications env a) (cfgFinal st a c)) := by
  simp only [invoke]
  rw [h]

theorem resolvedSignSessions_invalid (st : Settings) (m : String)
    (h1 : m ≠ "unsigned") (h2 : m ≠ "signed") (h3 : m ≠ "external-signed") :
    resolvedSignSessions st (some m) = Option.none := by
  unfold resolvedSignSessions
  split
  · rename_i heq; exact absurd heq (by simp)
  · rename_i heq; injection heq with hm; exact absurd hm h1
  · rename_i heq; injection heq with hm; exact absurd hm h2
  · rename_i heq; injection heq with hm; exact absurd hm h3
  · rfl

theorem cfgSession_ok_of_resolved (st : Settings) (a : Args) (b : Bool)
    (h : resolvedSignSessions st a.session_ids = some b) :
    ∃ c, cfgSession st a = Except.ok c := by
  cases hsid : a.session_ids with
  | none => exact ⟨_, cfgSession_none st a hsid⟩
  | some m =>
      by_cases hu : m = "unsigned"
      · exact ⟨_, cfgSession_unsigned st a (hu ▸ hsid)⟩
      · by_cases hs : m = "signed"
        · exact ⟨_, cfgSession_signed st a (hs ▸ hsid)⟩
        · by_cases he : m = "external-signed"
          · exact ⟨_, cfgSession_external st a (he ▸ hsid)⟩
          · rw [hsid, resolvedSignSessions_invalid st m hu hs he] at h
            exact absurd h (by simp)

theorem invoke_run_get_session (env : Env) (st : Settings) (a : Args)
    (apps : List (String × App)) (cfg : Config) (tr : List Event) (k : String)
    (h : invoke env st a = Outcome.run apps cfg tr)
    (hk1 : k ≠ "num_procs") (hk2 : k ≠ "auth_provider") (hk3 : k ≠ "xsrf_cookies")
    (hk4 : k ≠ "cookie_secret") (hk5 : k ≠ "use_index") (hk6 : k ≠ "redirect_root")
    (hk7 : k ≠ "autoreload") :
    ∃ c, cfgSession st a = Except.ok c ∧ cfgGet cfg k = cfgGet c k := by
  obtain ⟨-, c, hc, hbr⟩ := invoke_run_inv env st a apps cfg tr h
  refine ⟨c, hc, ?_⟩
  have hfin : cfgGet (cfgFinal st a c) k = cfgGet c k :=
    cfgGet_cfgFinal_ne st a c k hk2 hk3 hk4 hk5 hk6 hk7
  rcases hbr with ⟨-, hcfg, -⟩ | ⟨-, -, f0, rest, -, hcfg, -⟩
  · rw [hcfg, hfin]
  · rw [hcfg]
    split
    · rw [cfgGet_setKey_ne _ _ _ _ hk1, hfin]
    · rw [hfin]

theorem invoke_run_get_pre (env : Env) (st : Settings) (a : Args)
    (apps : List (String × App)) (cfg : Config) (tr : List Event) (k : String)
    (h : invoke env st a = Outcome.run apps cfg tr)
    (hk1 : k ≠ "num_procs") (hk2 : k ≠ "auth_provider") (hk3 : k ≠ "xsrf_cookies")
    (hk4 : k ≠ "cookie_secret") (hk5 : k ≠ "use_index") (hk6 : k ≠ "redirect_root")
    (hk7 : k ≠ "autoreload") (hk8 : k ≠ "sign_sessions")
    (hk9 : k ≠ "generate_session_ids") :
    cfgGet cfg k = cfgGet (cfgPreSession st a) k := by
  obtain ⟨c, hc, hget⟩ :=
    invoke_run_get_session env st a apps cfg tr k h hk1 hk2 hk3 hk4 hk5 hk6 hk7
  rw [hget]
  exact cfgSession_ok_ne st a c k hc hk8 hk9

theorem invoke_run_cookie_secret (env : Env) (st : Settings) (a : Args)
    (apps : List (String × App)) (cfg : Config) (tr : List Event)
    (h : invoke env st a = Outcome.run apps cfg tr) :
    cfgGet cfg "cookie_secret" = some (optStr (st.cookie_secret a.cookie_secret)) := by
  obtain ⟨-, c, hc, hbr⟩ := invoke_run_inv env st a apps cfg tr h
  rcases hbr with ⟨-, hcfg, -⟩ | ⟨-, -, f0, rest, -, hcfg, -⟩
  · rw [hcfg]; exact cfgGet_cfgFinal_cookie_secret st a c
  · rw [hcfg]
    split
    · rw [cfgGet_setKey_ne _ _ _ _ (by decide)]
      exact cfgGet_cfgFinal_cookie_secret st a c
    · exact cfgGet_cfgFinal_cookie_secret st a c

/-- C4: an empty discovered application mapping is replaced by the single
route `/` bound to an empty application, and the route table produced by the
route-resolution step is never empty. -/
theorem C4_empty_mapping_default_route (env : Env) (a : Args) :
    (env.buildApps (resolveFiles env a) a.appArgs = [] →
      resolveApplications env a = [("/", App.empty)]) ∧
    resolveApplications env a ≠ [] := by
  constructor
  · intro h
    rw [resolveApplications, h]
    rfl
  · exact resolveApplications_ne_nil env a

/-- Witness for C4 at a concrete environment whose builder returns an empty
mapping. -/
theorem C4_witness : resolveApplications env0 a0 = [("/", App.empty)] :=
  (C4_empty_mapping_default_route env0 a0).1 rfl

/-- C1: the session-signing configuration is resolved by a four-way split on
`--session-ids`: absent leaves `sign_sessions` at the settings default and
`generate_session_ids` at its default `True`; `unsigned` resolves signing to
false; `signed` to true with generation kept on; `external-signed` to true
with generation disabled; any other mode raises an immediate fatal
`RuntimeError`. -/
theorem C1_session_ids_four_way (env : Env) (st : Settings) (a : Args) :
    (∀ apps cfg tr, invoke env st a = Outcome.run apps cfg tr →
      (a.session_ids = Option.none →
        cfgGet cfg "sign_sessions" = some (Value.bool st.sign_sessions) ∧
        cfgGet cfg "generate_session_ids" = some (Value.bool true)) ∧
      (a.session_ids = some "unsigned" →
        cfgGet cfg "sign_sessions" = some (Value.bool false) ∧
        cfgGet cfg "generate_session_ids" = some (Value.bool true)) ∧
      (a.session_ids = some "signed" →
        cfgGet cfg "sign_sessions" = some (Value.bool true) ∧
        cfgGet cfg "generate_session_ids" = some (Value.bool true)) ∧
      (a.session_ids = some "external-signed" →
        cfgGet cfg "sign_sessions" = some (Value.bool true) ∧
        cfgGet cfg "generate_session_ids" = some (Value.bool false))) ∧
    (∀ m, a.session_ids = some m → m ≠ "unsigned" → m ≠ "signed" →
      m ≠ "external-signed" →
      invoke env st a =
        Outcome.fatal (Fatal.runtimeError
          ("argparse should have filtered out --session-ids mode " ++ m)) []) := by
  constructor
  · intro apps cfg tr h
    obtain ⟨cs, hcs, hgs⟩ := invoke_run_get_session env st a apps cfg tr
      "sign_sessions" h (by decide) (by decide) (by decide) (by decide) (by decide)
      (by decide) (by decide)
    obtain ⟨cg, hcg, hgg⟩ := invoke_run_get_session env st a apps cfg tr
      "generate_session_ids" h (by decide) (by decide) (by decide) (by decide)
      (by decide) (by decide) (by decide)
    refine ⟨?_, ?_, ?_, ?_⟩
    · intro hsid
      rw [cfgSession_none st a hsid] at hcs hcg
      injection hcs with hcs'
      injection hcg with hcg'
      constructor
      · rw [hgs, ← hcs', cfgGet_cfgPreSession_sign]
      · rw [hgg, ← hcg', cfgGet_cfgPreSession_generate]
    · intro hsid
      rw [cfgSession_unsigned st a hsid] at hcs hcg
      injection hcs with hcs'
      injection hcg with hcg'
      constructor
      · rw [hgs, ← hcs', cfgGet_setKey_self]
      · rw [hgg, ← hcg', cfgGet_setKey_ne _ _ _ _ (by decide),
            cfgGet_cfgPreSession_generate]
    · intro hsid
      rw [cfgSession_signed st a hsid] at hcs hcg
      injection hcs with hcs'
      injection hcg with hcg'
      constructor
      · rw [hgs, ← hcs', cfgGet_setKey_self]
      · rw [hgg, ← hcg', cfgGet_setKey_ne _ _ _ _ (by decide),
            cfgGet_cfgPreSession_generate]
    · intro hsid
      rw [cfgSession_external st a hsid] at hcs hcg
      injection hcs with hcs'
      injection hcg with hcg'
      constructor
      · rw [hgs, ← hcs', cfgGet_setKey_ne _ _ _ _ (by decide), cfgGet_setKey_self]
      · rw [hgg, ← hcg', cfgGet_setKey_self]
  · intro m hm h1 h2 h3
    exact invoke_error env st a _ (cfgSession_invalid st a m hm h1 h2 h3)

/-- Witness for C1 at `--session-ids unsigned` with a settings default of
signing enabled: the resolved flag is false. -/
theorem C1_witness :
    cfgGet (cfgFinal st0 aUnsigned
      (setKey (cfgPreSession st0 aUnsigned) "sign_sessions" (Value.bool false)))
      "sign_sessions" = some (Value.bool false) :=
  (((C1_session_ids_four_way env0 st0 aUnsigned).1 _ _ _ rfl).2.1 rfl).1

/-- C2: whenever the resolved signing flag is true and the settings-resolved
secret key is absent or empty, the bootstrap terminates through `die` with
the actionable secret-key diagnostic, and no server is constructed. -/
theorem C2_missing_secret_dies (env : Env) (st : Settings) (a : Args)
    (h1 : resolvedSignSessions st a.session_ids = some true)
    (h2 : pyFalsy (optStr st.secret_key_bytes) = true) :
    invoke env st a = Outcome.fatal (Fatal.die secretKeyDieMsg) [] := by
  obtain ⟨c, hc⟩ := cfgSession_ok_of_resolved st a true h1
  obtain ⟨b, hb, hbs⟩ := cfgSession_ok_sign st a c hc
  rw [hb] at h1
  injection h1 with hb1
  rw [hb1] at hbs
  have hsgn : cfgGetTruthy c "sign_sessions" = true := by
    rw [cfgGetTruthy_of_get _ _ _ hbs]; rfl
  have hsec0 : cfgGet c "secret_key" = some (optStr st.secret_key_bytes) := by
    rw [cfgSession_ok_ne st a c _ hc (by decide) (by decide),
        cfgGet_cfgPreSession_secret]
  have hsec : cfgGetTruthy c "secret_key" = false := by
    rw [cfgGetTruthy_of_get _ _ _ hsec0, h2]
    rfl
  rw [invoke_ok env st a c hc, hsgn, hsec]
  rfl

/-- Witness for C2: signing enabled by settings, no secret key. -/
theorem C2_witness :
    invoke env0 stSign a0 = Outcome.fatal (Fatal.die secretKeyDieMsg) [] :=
  C2_missing_secret_dies env0 stSign a0 rfl rfl

/-- C7: each duration-style flag is only renamed from its seconds-style CLI
name to the `..._milliseconds` constructor name, with the numeric value passed
through unchanged, and the renamed key is present in the resolved
configuration exactly when the source flag is not absent; the seconds-style
names never appear as keys. -/
theorem C7_duration_renames (env : Env) (st : Settings) (a : Args)
    (apps : List (String × App)) (cfg : Config) (tr : List Event)
    (h : invoke env st a = Outcome.run apps cfg tr) :
    cfgGet cfg "keep_alive_milliseconds" = a.keep_alive.map Value.int ∧
    cfgGet cfg "check_unused_sessions_milliseconds" =
      a.check_unused_sessions.map Value.int ∧
    cfgGet cfg "unused_session_lifetime_milliseconds" =
      a.unused_session_lifetime.map Value.int ∧
    cfgGet cfg "stats_log_frequency_milliseconds" =
      a.stats_log_frequency.map Value.int ∧
    cfgGet cfg "mem_log_frequency_milliseconds" = a.mem_log_frequency.map Value.int ∧
    cfgGet cfg "keep_alive" = Option.none ∧
    cfgGet cfg "check_unused_sessions" = Option.none ∧
    cfgGet cfg "unused_session_lifetime" = Option.none ∧
    cfgGet cfg "stats_log_frequency" = Option.none ∧
    cfgGet cfg "mem_log_frequency" = Option.none := by
  refine ⟨?_, ?_, ?_, ?_, ?_, ?_, ?_, ?_, ?_, ?_⟩
  · rw [invoke_run_get_pre env st a apps cfg tr _ h (by decide) (by decide)
        (by decide) (by decide) (by decide) (by decide) (by decide) (by decide)
        (by decide),
      cfgGet_cfgPreSession_ne st a _ (by decide) (by decide) (by decide) (by decide)
        (by decide) (by decide) (by decide) (by decide),
      baseKwargs_keep_alive]
  · rw [invoke_run_get_pre env st a apps cfg tr _ h (by decide) (by decide)
        (by decide) (by decide) (by decide) (by decide) (by decide) (by decide)
        (by decide),
      cfgGet_cfgPreSession_ne st a _ (by decide) (by decide) (by decide) (by decide)
        (by decide) (by decide) (by decide) (by decide),
      baseKwargs_check_unused]
  · rw [invoke_run_get_pre env st a apps cfg tr _ h (by decide) (by decide)
        (by decide) (by decide) (by decide) (by decide) (by decide) (by decide)
        (by decide),
      cfgGet_cfgPreSession_ne st a _ (by decide) (by decide) (by decide) (by decide)
        (by decide) (by decide) (by decide) (by decide),
      baseKwargs_unused_lifetime]
  · rw [invoke_run_get_pre env st a apps cfg tr _ h (by decide) (by decide)
        (by decide) (by decide) (by decide) (by decide) (by decide) (by decide)
        (by decide),
      cfgGet_cfgPreSession_ne st a _ (by decide) (by decide) (by decide) (by decide)
        (by decide) (by decide) (by decide) (by decide),
      baseKwargs_stats_freq]
  · rw [invoke_run_get_pre env st a apps cfg tr _ h (by decide) (by decide)
        (by decide) (by decide) (by decide) (by decide) (by decide) (by decide)
        (by decide),
      cfgGet_cfgPreSession_ne st a _ (by decide) (by decide) (by decide) (by decide)
        (by decide) (by decide) (by decide) (by decide),
      baseKwargs_mem_freq]
  · rw [invoke_run_get_pre env st a apps cfg tr _ h (by decide) (by decide)
        (by decide) (by decide) (by decide) (by decide) (by decide) (by decide)
        (by decide),
      cfgGet_cfgPreSession_ne st a _ (by decide) (by decide) (by decide) (by decide)
        (by decide) (by decide) (by decide) (by decide)]
    exact baseKwargs_absent a _ (by simp [kwargEntries])
  · rw [invoke_run_get_pre env st a apps cfg tr _ h (by decide) (by decide)
        (by decide) (by decide) (by decide) (by decide) (by decide) (by decide)
        (by decide),
      cfgGet_cfgPreSession_ne st a _ (by decide) (by decide) (by decide) (by decide)
        (by decide) (by decide) (by decide) (by decide)]
    exact baseKwargs_absent a _ (by simp [kwargEntries])
  · rw [invoke_run_get_pre env st a apps cfg tr _ h (by decide) (by decide)
        (by decide) (by decide) (by decide) (by decide) (by decide) (by decide)
        (by decide),
      cfgGet_cfgPreSession_ne st a _ (by decide) (by decide) (by decide) (by decide)
        (by decide) (by decide) (by decide) (by decide)]
    exact baseKwargs_absent a _ (by simp [kwargEntries])
  · rw [invoke_run_get_pre env st a apps cfg tr _ h (by decide) (by decide)
        (by decide) (by decide) (by decide) (by decide) (by decide) (by decide)
        (by decide),
      cfgGet_cfgPreSession_ne st a _ (by decide) (by decide) (by decide) (by decide)
        (by decide) (by decide) (by decide) (by decide)]
    exact baseKwargs_absent a _ (by simp [kwargEntries])
  · rw [invoke_run_get_pre env st a apps cfg tr _ h (by decide) (by decide)
        (by decide) (by decide) (by decide) (by decide) (by decide) (by decide)
        (by decide),
      cfgGet_cfgPreSession_ne st a _ (by decide) (by decide) (by decide) (by decide)
        (by decide) (by decide) (by decide) (by decide)]
    exact baseKwargs_absent a _ (by simp [kwargEntries])

/-- Witness for C7 at `--keep-alive 5000`. -/
theorem C7_witness :
    cfgGet (cfgFinal st0 aDur (cfgPreSession st0 aDur)) "keep_alive_milliseconds" =
      some (Value.int 5000) :=
  (C7_duration_renames env0 st0 aDur _ _ _ rfl).1

/-- C8: without `--tranquilize` the extra-pattern key is absent from the
resolved configuration; with it, exactly one extra pattern is present, the
catch-all regex `.*` wired to the fallback handler. -/
theorem C8_tranquilize_patterns (env : Env) (st : Settings) (a : Args)
    (apps : List (String × App)) (cfg : Config) (tr : List Event)
    (h : invoke env st a = Outcome.run apps cfg tr) :
    (a.tranquilize = false → cfgGet cfg "extra_patterns" = Option.none) ∧
    (a.tranquilize = true →
      cfgGet cfg "extra_patterns" = some (Value.patterns [(".*", true)])) := by
  have hget : cfgGet cfg "extra_patterns" =
      (if a.tranquilize then some (Value.patterns [(".*", true)]) else Option.none) := by
    rw [invoke_run_get_pre env st a apps cfg tr _ h (by decide) (by decide)
          (by decide) (by decide) (by decide) (by decide) (by decide) (by decide)
          (by decide),
        cfgGet_cfgPreSession_extra]
  constructor
  · intro ht; rw [hget, ht]; rfl
  · intro ht; rw [hget, ht]; rfl

/-- Witness for C8 with `--tranquilize` set. -/
theorem C8_witness :
    cfgGet (cfgFinal st0 aTranq (cfgPreSession st0 aTranq)) "extra_patterns" =
      some (Value.patterns [(".*", true)]) :=
  (C8_tranquilize_patterns env0 st0 aTranq _ _ _ rfl).2 rfl

/-- C9: when a run is reached in dev mode with a requested worker count other
than 1, the resolved worker count is 1, the informational downgrade line is in
the trace, and the route table holds exactly one application. -/
theorem C9_num_procs_downgrade (env : Env) (st : Settings) (a : Args)
    (apps : List (String × App)) (cfg : Config) (tr : List Event)
    (h : invoke env st a = Outcome.run apps cfg tr)
    (hdev : a.dev.isSome = true) (hn : a.num_procs ≠ 1) :
    cfgGet cfg "num_procs" = some (Value.int 1) ∧
    Event.info numProcsMsg ∈ tr ∧
    apps.length = 1 := by
  obtain ⟨-, c, hc, hbr⟩ := invoke_run_inv env st a apps cfg tr h
  rcases hbr with ⟨hdev', -, -⟩ | ⟨-, hlen, f0, rest, -, hcfg, htr⟩
  · rw [hdev'] at hdev; exact absurd hdev (by simp)
  · have hnum : cfgGet (cfgFinal st a c) "num_procs" = some (Value.int a.num_procs) := by
      rw [cfgGet_cfgFinal_ne st a c _ (by decide) (by decide) (by decide) (by decide)
            (by decide) (by decide),
          cfgSession_ok_ne st a c _ hc (by decide) (by decide),
          cfgGet_cfgPreSession_ne st a _ (by decide) (by decide) (by decide)
            (by decide) (by decide) (by decide) (by decide) (by decide),
          baseKwargs_num_procs]
    have hcond : cfgGet (cfgFinal st a c) "num_procs" ≠ some (Value.int 1) := by
      rw [hnum]
      simp only [ne_eq, Option.some.injEq, Value.int.injEq]
      exact hn
    refine ⟨?_, ?_, hlen⟩
    · rw [hcfg, if_pos hcond, cfgGet_setKey_self]
    · rw [htr, if_pos hcond]
      simp

/-- Witness for C9: dev mode, one (default) application, four workers. -/
theorem C9_witness :
    cfgGet (setKey (cfgFinal st0 aC9 (cfgPreSession st0 aC9)) "num_procs"
      (Value.int 1)) "num_procs" = some (Value.int 1) ∧
    Event.info numProcsMsg ∈ [Event.info numProcsMsg] ∧
    ([("/", App.empty)] : List (String × App)).length = 1 :=
  C9_num_procs_downgrade env0 st0 aC9 _ _ _ rfl rfl (by decide)

/-- C5: dev mode with two or more applications always terminates fatally with
an empty event trace (so nothing is watched and the server is never
constructed or run); when neither of the two earlier validations fires (the
session-ids mode is valid and the secret-key invariant holds), the diagnostic
is exactly the dev-mode `die` message. -/
theorem C5_dev_multiple_apps (env : Env) (st : Settings) (a : Args)
    (h1 : a.dev.isSome = true) (h2 : 2 ≤ (resolveApplications env a).length) :
    (∃ e, invoke env st a = Outcome.fatal e []) ∧
    (∀ b, resolvedSignSessions st a.session_ids = some b →
      (b = true → pyFalsy (optStr st.secret_key_bytes) = false) →
      invoke env st a = Outcome.fatal (Fatal.die devDieMsg) []) := by
  constructor
  · cases hc : cfgSession st a with
    | error m => exact ⟨Fatal.runtimeError m, invoke_error env st a m hc⟩
    | ok c =>
        by_cases hcond :
          (cfgGetTruthy c "sign_sessions" && !(cfgGetTruthy c "secret_key")) = true
        · exact ⟨Fatal.die secretKeyDieMsg, by rw [invoke_ok env st a c hc, if_pos hcond]⟩
        · refine ⟨Fatal.die devDieMsg, ?_⟩
          rw [invoke_ok env st a c hc, if_neg hcond]
          simp only [devAndRun]
          rw [if_pos h1, if_pos (by omega)]
  · intro b hb hsec
    obtain ⟨c, hc⟩ := cfgSession_ok_of_resolved st a b hb
    obtain ⟨b', hb', hbs⟩ := cfgSession_ok_sign st a c hc
    rw [hb] at hb'
    injection hb' with hbb
    rw [← hbb] at hbs
    have hsgn : cfgGetTruthy c "sign_sessions" = b := by
      rw [cfgGetTruthy_of_get _ _ _ hbs]
      cases b <;> rfl
    have hcond :
        (cfgGetTruthy c "sign_sessions" && !(cfgGetTruthy c "secret_key")) ≠ true := by
      cases hbv : b with
      | false => rw [hsgn, hbv]; simp
      | true =>
          have hsec0 : cfgGet c "secret_key" = some (optStr st.secret_key_bytes) := by
            rw [cfgSession_ok_ne st a c _ hc (by decide) (by decide),
                cfgGet_cfgPreSession_secret]
          have htru : cfgGetTruthy c "secret_key" = true := by
            rw [cfgGetTruthy_of_get _ _ _ hsec0, hsec hbv]
            rfl
          rw [hsgn, htru]
          simp
    rw [invoke_ok env st a c hc, if_neg hcond]
    simp only [devAndRun]
    rw [if_pos h1, if_pos (by omega)]

/-- Witness for C5: dev mode with a builder discovering two applications. -/
theorem C5_witness :
    invoke envTwo st0 aDev = Outcome.fatal (Fatal.die devDieMsg) [] :=
  (C5_dev_multiple_apps envTwo st0 aDev rfl (by decide)).2 false rfl
    (fun hb => Bool.noConfusion hb)

/-- C10: dev mode with an empty file list leaves the default single-entry
route table (passing the single-application check) and then evaluates
`args.files[0]` without a guard; the access is out of range, so the bootstrap
ends in an uncaught `IndexError` — never reaching the run step — with nothing
registered for watching. -/
theorem C10_dev_empty_files_index_error (env : Env) (st : Settings) (a : Args)
    (hf : a.files = []) (hdev : a.dev.isSome = true)
    (hb : env.buildApps [] a.appArgs = [])
    (hsec : ∀ b, resolvedSignSessions st a.session_ids = some b →
      b = true → pyFalsy (optStr st.secret_key_bytes) = false)
    (hv : (resolvedSignSessions st a.session_ids).isSome = true) :
    ∃ ev, invoke env st a = Outcome.fatal Fatal.indexError ev ∧
      watchedEvents ev = [] := by
  obtain ⟨b, hbv⟩ : ∃ b, resolvedSignSessions st a.session_ids = some b := by
    cases hres : resolvedSignSessions st a.session_ids with
    | none => rw [hres] at hv; exact absurd hv (by simp)
    | some b => exact ⟨b, rfl⟩
  obtain ⟨c, hc⟩ := cfgSession_ok_of_resolved st a b hbv
  obtain ⟨b', hb', hbs⟩ := cfgSession_ok_sign st a c hc
  rw [hbv] at hb'
  injection hb' with hbb
  rw [← hbb] at hbs
  have hsgn : cfgGetTruthy c "sign_sessions" = b := by
    rw [cfgGetTruthy_of_get _ _ _ hbs]
    cases b <;> rfl
  have hcond :
      (cfgGetTruthy c "sign_sessions" && !(cfgGetTruthy c "secret_key")) ≠ true := by
    cases hbvv : b with
    | false => rw [hsgn, hbvv]; simp
    | true =>
        have hsec0 : cfgGet c "secret_key" = some (optStr st.secret_key_bytes) := by
          rw [cfgSession_ok_ne st a c _ hc (by decide) (by decide),
              cfgGet_cfgPreSession_secret]
        have htru : cfgGetTruthy c "secret_key" = true := by
          rw [cfgGetTruthy_of_get _ _ _ hsec0, hsec b hbv hbvv]
          rfl
        rw [hsgn, htru]
        simp
  have happs : resolveApplications env a = [("/", App.empty)] := by
    have hfiles : resolveFiles env a = [] := by
      rw [resolveFiles, hf]
      split <;> rfl
    rw [resolveApplications, hfiles, hb]
    rfl
  refine ⟨(if cfgGet (cfgFinal st a c) "num_procs" ≠ some (Value.int 1)
           then [Event.info numProcsMsg] else []), ?_, ?_⟩
  · rw [invoke_ok env st a c hc, if_neg hcond]
    simp only [devAndRun]
    rw [if_pos hdev, if_neg (by rw [happs]; simp), hf]
  · split <;> rfl

/-- Witness for C10: dev mode requested with an empty file list. -/
theorem C10_witness : isFatal (invoke env0 st0 aDev) = true := by
  obtain ⟨ev, hev, -⟩ := C10_dev_empty_files_index_error env0 st0 aDev rfl rfl rfl
    (by
      intro b hb0 hbt
      injection hb0 with hb0'
      rw [← hb0'] at hbt
      exact absurd hbt (by decide))
    rfl
  rw [hev]
  rfl

theorem some_inj_ne_none (v w : Value) (hw : w ≠ Value.none) (h : some v = some w) :
    v ≠ Value.none := by
  injection h with h'
  rw [h']
  exact hw

theorem opt_map_ne_none {α : Type} (f : α → Value) (hf : ∀ x, f x ≠ Value.none)
    (o : Option α) (v : Value) (h : some v = o.map f) : v ≠ Value.none := by
  cases o with
  | none => exact absurd h (by simp)
  | some x =>
      rw [Option.map_some'] at h
      injection h with h'
      rw [h']
      exact hf x

theorem baseKwargs_not_none (a : Args) (p : String × Value)
    (hp : p ∈ baseKwargs a) : p.2 ≠ Value.none := by
  have hm := mem_cfgOfEntries _ _ hp
  rw [kwargEntries] at hm
  simp only [List.mem_cons, List.not_mem_nil, or_false] at hm
  rcases hm with hm|hm|hm|hm|hm|hm|hm|hm|hm|hm|hm|hm|hm|hm|hm|hm|hm|hm
  · exact opt_map_ne_none Value.int (fun x hx => Value.noConfusion hx) _ _
      (congrArg Prod.snd hm)
  · exact opt_map_ne_none Value.str (fun x hx => Value.noConfusion hx) _ _
      (congrArg Prod.snd hm)
  · exact opt_map_ne_none Value.strList (fun x hx => Value.noConfusion hx) _ _
      (congrArg Prod.snd hm)
  · exact some_inj_ne_none _ _ (fun hx => Value.noConfusion hx) (congrArg Prod.snd hm)
  · exact opt_map_ne_none Value.str (fun x hx => Value.noConfusion hx) _ _
      (congrArg Prod.snd hm)
  · exact opt_map_ne_none Value.str (fun x hx => Value.noConfusion hx) _ _
      (congrArg Prod.snd hm)
  · exact opt_map_ne_none Value.int (fun x hx => Value.noConfusion hx) _ _
      (congrArg Prod.snd hm)
  · exact opt_map_ne_none Value.int (fun x hx => Value.noConfusion hx) _ _
      (congrArg Prod.snd hm)
  · exact opt_map_ne_none Value.int (fun x hx => Value.noConfusion hx) _ _
      (congrArg Prod.snd hm)
  · exact opt_map_ne_none Value.int (fun x hx => Value.noConfusion hx) _ _
      (congrArg Prod.snd hm)
  · exact opt_map_ne_none Value.int (fun x hx => Value.noConfusion hx) _ _
      (congrArg Prod.snd hm)
  · exact some_inj_ne_none _ _ (fun hx => Value.noConfusion hx) (congrArg Prod.snd hm)
  · exact opt_map_ne_none Value.int (fun x hx => Value.noConfusion hx) _ _
      (congrArg Prod.snd hm)
  · exact opt_map_ne_none Value.strList (fun x hx => Value.noConfusion hx) _ _
      (congrArg Prod.snd hm)
  · exact opt_map_ne_none Value.strList (fun x hx => Value.noConfusion hx) _ _
      (congrArg Prod.snd hm)
  · exact opt_map_ne_none Value.strList (fun x hx => Value.noConfusion hx) _ _
      (congrArg Prod.snd hm)
  · exact opt_map_ne_none Value.strList (fun x hx => Value.noConfusion hx) _ _
      (congrArg Prod.snd hm)
  · exact opt_map_ne_none Value.int (fun x hx => Value.noConfusion hx) _ _
      (congrArg Prod.snd hm)

theorem authVal_ne_none (o : Option String) :
    (match o with
     | some p => if p.isEmpty then Value.nullAuth else Value.authModule p
     | Option.none => Value.nullAuth) ≠ Value.none := by
  cases o with
  | none => simp
  | some q =>
      dsimp only
      split <;> simp

theorem mem_cfgPreSession_none (st : Settings) (a : Args) (p : String × Value)
    (hp : p ∈ cfgPreSession st a) (hnone : p.2 = Value.none) :
    p.1 = "secret_key" ∨ p.1 = "ssl_certfile" ∨ p.1 = "ssl_keyfile" ∨
    p.1 = "ssl_password" := by
  have hbase : ∀ q : String × Value, q ∈ baseKwargs a → q.2 ≠ Value.none :=
    fun q hq => baseKwargs_not_none a q hq
  have hk1 : p ∈ (if (cfgGet (baseKwargs a) "index").isNone
      then setKey (baseKwargs a) "index" (Value.str INDEX_HTML)
      else baseKwargs a) → False := by
    intro hp1
    split at hp1
    · rcases mem_setKey _ _ _ _ hp1 with hq | hp1
      · rw [hq] at hnone; simp at hnone
      · exact (hbase p hp1) hnone
    · exact (hbase p hp1) hnone
  simp only [cfgPreSession] at hp
  rcases mem_setKey _ _ _ _ hp with hq | hp
  · rw [hq] at hnone; simp at hnone
  · rcases mem_setKey _ _ _ _ hp with hq | hp
    · exact Or.inr (Or.inr (Or.inr (by rw [hq])))
    · rcases mem_setKey _ _ _ _ hp with hq | hp
      · exact Or.inr (Or.inr (Or.inl (by rw [hq])))
      · rcases mem_setKey _ _ _ _ hp with hq | hp
        · exact Or.inr (Or.inl (by rw [hq]))
        · rcases mem_setKey _ _ _ _ hp with hq | hp
          · exact Or.inl (by rw [hq])
          · rcases mem_setKey _ _ _ _ hp with hq | hp
            · rw [hq] at hnone; simp at hnone
            · by_cases ht : a.tranquilize
              · rw [if_pos ht] at hp
                rcases mem_setKey _ _ _ _ hp with hq | hp
                · rw [hq] at hnone; simp at hnone
                · exact (hk1 hp).elim
              · rw [if_neg ht] at hp
                exact (hk1 hp).elim

theorem mem_cfgSession_ok_none (st : Settings) (a : Args) (c : Config)
    (p : String × Value) (hc : cfgSession st a = Except.ok c)
    (hp : p ∈ c) (hnone : p.2 = Value.none) :
    p.1 = "secret_key" ∨ p.1 = "ssl_certfile" ∨ p.1 = "ssl_keyfile" ∨
    p.1 = "ssl_password" := by
  cases hsid : a.session_ids with
  | none =>
      rw [cfgSession_none st a hsid] at hc
      injection hc with hc'
      rw [← hc'] at hp
      exact mem_cfgPreSession_none st a p hp hnone
  | some m =>
      by_cases hu : m = "unsigned"
      · rw [cfgSession_unsigned st a (hu ▸ hsid)] at hc
        injection hc with hc'
        rw [← hc'] at hp
        rcases mem_setKey _ _ _ _ hp with hq | hp
        · rw [hq] at hnone; simp at hnone
        · exact mem_cfgPreSession_none st a p hp hnone
      · by_cases hs : m = "signed"
        · rw [cfgSession_signed st a (hs ▸ hsid)] at hc
          injection hc with hc'
          rw [← hc'] at hp
          rcases mem_setKey _ _ _ _ hp with hq | hp
          · rw [hq] at hnone; simp at hnone
          · exact mem_cfgPreSession_none st a p hp hnone
        · by_cases he : m = "external-signed"
          · rw [cfgSession_external st a (he ▸ hsid)] at hc
            injection hc with hc'
            rw [← hc'] at hp
            rcases mem_setKey _ _ _ _ hp with hq | hp
            · rw [hq] at hnone; simp at hnone
            · rcases mem_setKey _ _ _ _ hp with hq | hp
              · rw [hq] at hnone; simp at hnone
              · exact mem_cfgPreSession_none st a p hp hnone
          · rw [cfgSession_invalid st a m hsid hu hs he] at hc
            exact absurd hc (by simp)

theorem mem_cfgFinal_none (st : Settings) (a : Args) (c : Config)
    (p : String × Value) (hp : p ∈ cfgFinal st a c) (hnone : p.2 = Value.none) :
    p.1 = "cookie_secret" ∨ p ∈ c := by
  simp only [cfgFinal] at hp
  rcases mem_setKey _ _ _ _ hp with hq | hp
  · rw [hq] at hnone; simp at hnone
  · rcases mem_setKey _ _ _ _ hp with hq | hp
    · rw [hq] at hnone; simp at hnone
    · rcases mem_setKey _ _ _ _ hp with hq | hp
      · rw [hq] at hnone; simp at hnone
      · rcases mem_setKey _ _ _ _ hp with hq | hp
        · exact Or.inl (by rw [hq])
        · rcases mem_setKey _ _ _ _ hp with hq | hp
          · rw [hq] at hnone; simp at hnone
          · rcases mem_setKey _ _ _ _ hp with hq | hp
            · rw [hq] at hnone
              exact absurd hnone (authVal_ne_none _)
            · exact Or.inr hp

/-- C3 counterexample: with nothing configured in the environment, the
bootstrap reaches the run step with the key `ssl_password` present in the
resolved configuration and bound to `None` — the settings-derived keys of
lines 121-125 are assigned unconditionally, null or not. -/
theorem C3_counterexample :
    invoke env0 st0 a0 =
      Outcome.run [("/", App.empty)] (cfgFinal st0 a0 (cfgPreSession st0 a0)) [] ∧
    cfgGet (cfgFinal st0 a0 (cfgPreSession st0 a0)) "ssl_password" =
      some Value.none :=
  ⟨rfl, by decide⟩

/-- C3 (amended): on every input reaching server construction, a key carries
the null value only if it is one of the five settings-derived keys
`secret_key`, `ssl_certfile`, `ssl_keyfile`, `ssl_password`, `cookie_secret`
(which the bootstrap always assigns, possibly to null); every other key,
including every key copied from the argument allow-list, is non-null; every
optional allow-list field except `index` appears as a key exactly when its
source value is present, with the value copied through unchanged; and `index`,
whose resolved value is never absent, is always present, bound to the supplied
value or to the built-in default. -/
theorem C3_nonnull_amended (env : Env) (st : Settings) (a : Args)
    (apps : List (String × App)) (cfg : Config) (tr : List Event)
    (h : invoke env st a = Outcome.run apps cfg tr) :
    (∀ p ∈ cfg, p.2 = Value.none →
      p.1 = "secret_key" ∨ p.1 = "ssl_certfile" ∨ p.1 = "ssl_keyfile" ∨
      p.1 = "ssl_password" ∨ p.1 = "cookie_secret") ∧
    cfgGet cfg "secret_key" = some (optStr st.secret_key_bytes) ∧
    cfgGet cfg "ssl_certfile" = some (optStr (st.ssl_certfile a.ssl_certfile)) ∧
    cfgGet cfg "ssl_keyfile" = some (optStr (st.ssl_keyfile a.ssl_keyfile)) ∧
    cfgGet cfg "ssl_password" = some (optStr st.ssl_password) ∧
    cfgGet cfg "cookie_secret" = some (optStr (st.cookie_secret a.cookie_secret)) ∧
    cfgGet cfg "port" = a.port.map Value.int ∧
    cfgGet cfg "address" = a.address.map Value.str ∧
    cfgGet cfg "allow_websocket_origin" = a.allow_websocket_origin.map Value.strList ∧
    cfgGet cfg "prefix" = a.prefixArg.map Value.str ∧
    cfgGet cfg "websocket_max_message_size" =
      a.websocket_max_message_size.map Value.int ∧
    cfgGet cfg "include_cookies" = a.include_cookies.map Value.strList ∧
    cfgGet cfg "include_headers" = a.include_headers.map Value.strList ∧
    cfgGet cfg "exclude_cookies" = a.exclude_cookies.map Value.strList ∧
    cfgGet cfg "exclude_headers" = a.exclude_headers.map Value.strList ∧
    cfgGet cfg "session_token_expiration" =
      a.session_token_expiration.map Value.int ∧
    cfgGet cfg "keep_alive_milliseconds" = a.keep_alive.map Value.int ∧
    cfgGet cfg "check_unused_sessions_milliseconds" =
      a.check_unused_sessions.map Value.int ∧
    cfgGet cfg "unused_session_lifetime_milliseconds" =
      a.unused_session_lifetime.map Value.int ∧
    cfgGet cfg "stats_log_frequency_milliseconds" =
      a.stats_log_frequency.map Value.int ∧
    cfgGet cfg "mem_log_frequency_milliseconds" = a.mem_log_frequency.map Value.int ∧
    cfgGet cfg "index" = some (Value.str (a.index.getD INDEX_HTML)) := by
  refine ⟨?_, ?_, ?_, ?_, ?_, ?_, ?_, ?_, ?_, ?_, ?_, ?_, ?_, ?_, ?_, ?_, ?_, ?_,
    ?_, ?_, ?_, ?_⟩
  · intro p hp hnone
    obtain ⟨-, c, hc, hbr⟩ := invoke_run_inv env st a apps cfg tr h
    have hfin : p ∈ cfgFinal st a c →
        p.1 = "secret_key" ∨ p.1 = "ssl_certfile" ∨ p.1 = "ssl_keyfile" ∨
        p.1 = "ssl_password" ∨ p.1 = "cookie_secret" := by
      intro hpf
      rcases mem_cfgFinal_none st a c p hpf hnone with hck | hpc
      · exact Or.inr (Or.inr (Or.inr (Or.inr hck)))
      · rcases mem_cfgSession_ok_none st a c p hc hpc hnone with h1 | h1 | h1 | h1
        · exact Or.inl h1
        · exact Or.inr (Or.inl h1)
        · exact Or.inr (Or.inr (Or.inl h1))
        · exact Or.inr (Or.inr (Or.inr (Or.inl h1)))
    rcases hbr with ⟨-, hcfg, -⟩ | ⟨-, -, f0, rest, -, hcfg, -⟩
    · rw [hcfg] at hp
      exact hfin hp
    · rw [hcfg] at hp
      split at hp
      · rcases mem_setKey _ _ _ _ hp with hq | hp'
        · rw [hq] at hnone; simp at hnone
        · exact hfin hp'
      · exact hfin hp
  · rw [invoke_run_get_pre env st a apps cfg tr _ h (by decide) (by decide)
        (by decide) (by decide) (by decide) (by decide) (by decide) (by decide)
        (by decide),
      cfgGet_cfgPreSession_secret]
  · rw [invoke_run_get_pre env st a apps cfg tr _ h (by decide) (by decide)
        (by decide) (by decide) (by decide) (by decide) (by decide) (by decide)
        (by decide),
      cfgGet_cfgPreSession_ssl_certfile]
  · rw [invoke_run_get_pre env st a apps cfg tr _ h (by decide) (by decide)
        (by decide) (by decide) (by decide) (by decide) (by decide) (by decide)
        (by decide),
      cfgGet_cfgPreSession_ssl_keyfile]
  · rw [invoke_run_get_pre env st a apps cfg tr _ h (by decide) (by decide)
        (by decide) (by decide) (by decide) (by decide) (by decide) (by decide)
        (by decide),
      cfgGet_cfgPreSession_ssl_password]
  · exact invoke_run_cookie_secret env st a apps cfg tr h
  · rw [invoke_run_get_pre env st a apps cfg tr _ h (by decide) (by decide)
        (by decide) (by decide) (by decide) (by decide) (by decide) (by decide)
        (by decide),
      cfgGet_cfgPreSession_ne st a _ (by decide) (by decide) (by decide) (by decide)
        (by decide) (by decide) (by decide) (by decide),
      baseKwargs_port]
  · rw [invoke_run_get_pre env st a apps cfg tr _ h (by decide) (by decide)
        (by decide) (by decide) (by decide) (by decide) (by decide) (by decide)
        (by decide),
      cfgGet_cfgPreSession_ne st a _ (by decide) (by decide) (by decide) (by decide)
        (by decide) (by decide) (by decide) (by decide),
      baseKwargs_address]
  · rw [invoke_run_get_pre env st a apps cfg tr _ h (by decide) (by decide)
        (by decide) (by decide) (by decide) (by decide) (by decide) (by decide)
        (by decide),
      cfgGet_cfgPreSession_ne st a _ (by decide) (by decide) (by decide) (by decide)
        (by decide) (by decide) (by decide) (by decide),
      baseKwargs_allow_origin]
  · rw [invoke_run_get_pre env st a apps cfg tr _ h (by decide) (by decide)
        (by decide) (by decide) (by decide) (by decide) (by decide) (by decide)
        (by decide),
      cfgGet_cfgPreSession_ne st a _ (by decide) (by decide) (by decide) (by decide)
        (by decide) (by decide) (by decide) (by decide),
      baseKwargs_prefixArg]
  · rw [invoke_run_get_pre env st a apps cfg tr _ h (by decide) (by decide)
        (by decide) (by decide) (by decide) (by decide) (by decide) (by decide)
        (by decide),
      cfgGet_cfgPreSession_ne st a _ (by decide) (by decide) (by decide) (by decide)
        (by decide) (by decide) (by decide) (by decide),
      baseKwargs_ws_max]
  · rw [invoke_run_get_pre env st a apps cfg tr _ h (by decide) (by decide)
        (by decide) (by decide) (by decide) (by decide) (by decide) (by decide)
        (by decide),
      cfgGet_cfgPreSession_ne st a _ (by decide) (by decide) (by decide) (by decide)
        (by decide) (by decide) (by decide) (by decide),
      baseKwargs_include_cookies]
  · rw [invoke_run_get_pre env st a apps cfg tr _ h (by decide) (by decide)
        (by decide) (by decide) (by decide) (by decide) (by decide) (by decide)
        (by decide),
      cfgGet_cfgPreSession_ne st a _ (by decide) (by decide) (by decide) (by decide)
        (by decide) (by decide) (by decide) (by decide),
      baseKwargs_include_headers]
  · rw [invoke_run_get_pre env st a apps cfg tr _ h (by decide) (by decide)
        (by decide) (by decide) (by decide) (by decide) (by decide) (by decide)
        (by decide),
      cfgGet_cfgPreSession_ne st a _ (by decide) (by decide) (by decide) (by decide)
        (by decide) (by decide) (by decide) (by decide),
      baseKwargs_exclude_cookies]
  · rw [invoke_run_get_pre env st a apps cfg tr _ h (by decide) (by decide)
        (by decide) (by decide) (by decide) (by decide) (by decide) (by decide)
        (by decide),
      cfgGet_cfgPreSession_ne st a _ (by decide) (by decide) (by decide) (by decide)
        (by decide) (by decide) (by decide) (by decide),
      baseKwargs_exclude_headers]
  · rw [invoke_run_get_pre env st a apps cfg tr _ h (by decide) (by decide)
        (by decide) (by decide) (by decide) (by decide) (by decide) (by decide)
        (by decide),
      cfgGet_cfgPreSession_ne st a _ (by decide) (by decide) (by decide) (by decide)
        (by decide) (by decide) (by decide) (by decide),
      baseKwargs_token_expiration]
  · rw [invoke_run_get_pre env st a apps cfg tr _ h (by decide) (by decide)
        (by decide) (by decide) (by decide) (by decide) (by decide) (by decide)
        (by decide),
      cfgGet_cfgPreSession_ne st a _ (by decide) (by decide) (by decide) (by decide)
        (by decide) (by decide) (by decide) (by decide),
      baseKwargs_keep_alive]
  · rw [invoke_run_get_pre env st a apps cfg tr _ h (by decide) (by decide)
        (by decide) (by decide) (by decide) (by decide) (by decide) (by decide)
        (by decide),
      cfgGet_cfgPreSession_ne st a _ (by decide) (by decide) (by decide) (by decide)
        (by decide) (by decide) (by decide) (by decide),
      baseKwargs_check_unused]
  · rw [invoke_run_get_pre env st a apps cfg tr _ h (by decide) (by decide)
        (by decide) (by decide) (by decide) (by decide) (by decide) (by decide)
        (by decide),
      cfgGet_cfgPreSession_ne st a _ (by decide) (by decide) (by decide) (by decide)
        (by decide) (by decide) (by decide) (by decide),
      baseKwargs_unused_lifetime]
  · rw [invoke_run_get_pre env st a apps cfg tr _ h (by decide) (by decide)
        (by decide) (by decide) (by decide) (by decide) (by decide) (by decide)
        (by decide),
      cfgGet_cfgPreSession_ne st a _ (by decide) (by decide) (by decide) (by decide)
        (by decide) (by decide) (by decide) (by decide),
      baseKwargs_stats_freq]
  · rw [invoke_run_get_pre env st a apps cfg tr _ h (by decide) (by decide)
        (by decide) (by decide) (by decide) (by decide) (by decide) (by decide)
        (by decide),
      cfgGet_cfgPreSession_ne st a _ (by decide) (by decide) (by decide) (by decide)
        (by decide) (by decide) (by decide) (by decide),
      baseKwargs_mem_freq]
  · rw [invoke_run_get_pre env st a apps cfg tr _ h (by decide) (by decide)
        (by decide) (by decide) (by decide) (by decide) (by decide) (by decide)
        (by decide),
      cfgGet_cfgPreSession_index]

/-- Witness for the amended C3 at the default input. -/
theorem C3_witness :
    cfgGet (cfgFinal st0 a0 (cfgPreSession st0 a0)) "secret_key" =
      some (optStr st0.secret_key_bytes) :=
  (C3_nonnull_amended env0 st0 a0 _ _ _ rfl).2.1

theorem fileNames_file_cons (m : String) (rest : EntryList) :
    fileNames (EntryList.cons (Entry.file m) rest) = m :: fileNames rest := rfl

theorem fileNames_dir_cons (m : String) (cs : EntryList) (rest : EntryList) :
    fileNames (EntryList.cons (Entry.dir m cs) rest) = fileNames rest := rfl

theorem mem_map_pair (d n path : String) (l : List String) :
    ((d, n) ∈ l.map fun x => (path, x)) ↔ (d = path ∧ n ∈ l) := by
  constructor
  · intro h
    obtain ⟨x, hx, he⟩ := List.mem_map.mp h
    rw [Prod.mk.injEq] at he
    exact ⟨he.1.symm, he.2 ▸ hx⟩
  · intro h
    exact List.mem_map.mpr ⟨n, h.2, by rw [h.1]⟩

theorem walkPairs_cons (t : String × List String × List String)
    (ts : List (String × List String × List String)) :
    walkPairs (t :: ts) = (t.2.2.map fun n => (t.1, n)) ++ walkPairs ts := by
  simp [walkPairs]

theorem walkPairs_append (l1 l2 : List (String × List String × List String)) :
    walkPairs (l1 ++ l2) = walkPairs l1 ++ walkPairs l2 := by
  simp [walkPairs]

theorem allFilePairs_split (d n : String) : ∀ (path : String) (es : EntryList),
    ((d, n) ∈ allFilePairs path es ↔
      (d = path ∧ n ∈ fileNames es) ∨ (d, n) ∈ subFilePairs path es)
  | path, EntryList.nil => by simp [allFilePairs, subFilePairs, fileNames]
  | path, EntryList.cons (Entry.file m) rest => by
      have ih := allFilePairs_split d n path rest
      simp only [allFilePairs, subFilePairs, fileNames_file_cons, List.mem_cons,
        Prod.mk.injEq]
      rw [ih]
      tauto
  | path, EntryList.cons (Entry.dir m cs) rest => by
      have ih := allFilePairs_split d n path rest
      simp only [allFilePairs, subFilePairs, fileNames_dir_cons, List.mem_append]
      rw [ih]
      tauto

theorem walkChildren_pairs (d n : String) : ∀ (path : String) (es : EntryList),
    ((d, n) ∈ walkPairs (walkChildren path es) ↔ (d, n) ∈ subFilePairs path es)
  | path, EntryList.nil => by simp [walkChildren, subFilePairs, walkPairs]
  | path, EntryList.cons (Entry.file m) rest => by
      have ih := walkChildren_pairs d n path rest
      simp only [walkChildren, subFilePairs]
      exact ih
  | path, EntryList.cons (Entry.dir m cs) rest => by
      have ih1 := walkChildren_pairs d n (joinPath path m) cs
      have ih2 := walkChildren_pairs d n path rest
      have hsp := allFilePairs_split d n (joinPath path m) cs
      simp only [walkChildren, subFilePairs, walkPairs_append, walkPairs_cons,
        List.mem_append, mem_map_pair]
      rw [ih1, ih2, hsp]

theorem walkDir_pairs (d n path : String) (es : EntryList) :
    ((d, n) ∈ walkPairs (walkDir path es)) ↔ (d, n) ∈ allFilePairs path es := by
  rw [walkDir, walkPairs_cons, allFilePairs_split d n path es]
  simp only [List.mem_append, mem_map_pair]
  rw [walkChildren_pairs d n path es]

theorem mem_walkPairs (ts : List (String × List String × List String))
    (d n : String) :
    ((d, n) ∈ walkPairs ts) ↔ ∃ t, t ∈ ts ∧ t.1 = d ∧ n ∈ t.2.2 := by
  simp only [walkPairs, List.mem_flatMap, List.mem_map]
  constructor
  · rintro ⟨t, ht, x, hx, he⟩
    rw [Prod.mk.injEq] at he
    exact ⟨t, ht, he.1, he.2 ▸ hx⟩
  · rintro ⟨t, ht, h1, h2⟩
    exact ⟨t, ht, n, h2, by rw [h1]⟩

/-- C6: when the (absolute) application path is a directory, the recursive
scan registers exactly the joined paths of the regular files, at any depth
below it, whose names end (case-sensitively) in `.html`, `.css` or `.yaml`,
and logs `Watching: <path>` for every registration; files with any other
name are never registered. -/
theorem C6_autoreload_scan (env : Env) (ap nm : String) (cs : EntryList)
    (h : env.pathEntry (env.abspath ap) = some (Entry.dir nm cs)) :
    (∀ q, Event.watch q ∈ find_autoreload_targets env ap ↔
      ∃ pr, pr ∈ allFilePairs (env.abspath ap) cs ∧
        q = joinPath pr.1 pr.2 ∧ matchesAutoreloadTarget pr.2 = true) ∧
    (∀ q, Event.watch q ∈ find_autoreload_targets env ap →
      Event.info ("Watching: " ++ q) ∈ find_autoreload_targets env ap) := by
  have hunf : find_autoreload_targets env ap =
      (walkDir (env.abspath ap) cs).flatMap fun t =>
        (t.2.2.filter matchesAutoreloadTarget).flatMap fun n =>
          [Event.info ("Watching: " ++ joinPath t.1 n),
           Event.watch (joinPath t.1 n)] := by
    rw [find_autoreload_targets, h]
  constructor
  · intro q
    rw [hunf]
    constructor
    · intro hq
      obtain ⟨t, ht, hq⟩ := List.mem_flatMap.mp hq
      obtain ⟨n0, hn0, hq⟩ := List.mem_flatMap.mp hq
      rw [List.mem_filter] at hn0
      simp only [List.mem_cons, List.not_mem_nil, or_false] at hq
      rcases hq with hq | hq
      · exact absurd hq (by simp)
      · injection hq with hq'
        refine ⟨(t.1, n0), ?_, hq', hn0.2⟩
        exact (walkDir_pairs t.1 n0 _ cs).mp
          ((mem_walkPairs _ _ _).mpr ⟨t, ht, rfl, hn0.1⟩)
    · rintro ⟨pr, hpr, hq, hm⟩
      obtain ⟨t, ht, ht1, htn⟩ :=
        (mem_walkPairs _ pr.1 pr.2).mp ((walkDir_pairs pr.1 pr.2 _ cs).mpr hpr)
      refine List.mem_flatMap.mpr ⟨t, ht, ?_⟩
      refine List.mem_flatMap.mpr ⟨pr.2, List.mem_filter.mpr ⟨htn, hm⟩, ?_⟩
      simp [hq, ht1]
  · intro q hq
    rw [hunf] at hq ⊢
    obtain ⟨t, ht, hq⟩ := List.mem_flatMap.mp hq
    obtain ⟨n0, hn0, hq⟩ := List.mem_flatMap.mp hq
    simp only [List.mem_cons, List.not_mem_nil, or_false] at hq
    rcases hq with hq | hq
    · exact absurd hq (by simp)
    · injection hq with hq'
      refine List.mem_flatMap.mpr ⟨t, ht, List.mem_flatMap.mpr ⟨n0, hn0, ?_⟩⟩
      rw [hq']
      simp

/-- Witness for C6 on a two-level tree: a matching `.css` file two levels down
is registered and logged; a `.py` file beside it is not registered. -/
theorem C6_witness :
    (Event.watch "/app/sub/c.css" ∈ find_autoreload_targets env1 "app") ∧
    (Event.info "Watching: /app/sub/c.css" ∈ find_autoreload_targets env1 "app") ∧
    ¬(Event.watch "/app/sub/e.py" ∈ find_autoreload_targets env1 "app") := by
  have hC := C6_autoreload_scan env1 "app" "app" tree1Children rfl
  have h1 : Event.watch "/app/sub/c.css" ∈ find_autoreload_targets env1 "app" :=
    (hC.1 "/app/sub/c.css").mpr ⟨("/app/sub", "c.css"), by decide, by decide, by decide⟩
  exact ⟨h1, hC.2 _ h1, by decide⟩

end PanelServe
